import Mathlib

/-!
Shallow embedding of the IDOR detection engine (repository `idor-pwn`).

Source files embedded:
  * `src/core/patterns.py`     — pattern matcher (four fixed IDOR patterns)
  * `src/core/heuristic.py`    — stateful heuristic analyzer
  * `src/core/differential.py` — differential analyzer (access-level checks)
  * `src/core/blind_detector.py` — timing-based blind detection (analysis phase)
  * `src/core/advanced_detector.py` — orchestrator result fusion

Modelling conventions:
  * Python floats are modelled by `ℚ` (all constants in the code are decimal
    literals; every comparison relevant to the claims is far from the float
    rounding error of the corresponding Python computation).
  * Python dicts whose keys are data are association lists with unique keys
    (`PyDict`); dicts with a fixed key schema are Lean structures with one
    `Option` field per key that may be absent.
  * Python `None` is `Value.vNull`; Python truthiness and `==` are modelled
    by `pyTruthy` and `pyEq` (numeric cross-type equality included, since
    `True == 1` and `0 == False` in Python).
  * Python `set(...)` results are modelled as duplicate-free lists keeping
    first occurrences; the code only compares their sizes with thresholds or
    stores them as evidence, so the (unspecified) Python set order is never
    observed by any property proved here.
-/

/-- A Python (JSON-like) value: numbers keep the `int`/`float` distinction
because `heuristic.py` compares `type(...)` of values. -/
inductive Value : Type where
  | vInt (n : Int)
  | vFloat (q : ℚ)
  | vStr (s : String)
  | vBool (b : Bool)
  | vNull
  | vList (xs : List Value)
  | vDict (d : List (String × Value))

/-- A Python dict with string keys, as an association list (first binding
wins; real dicts have unique keys). -/
abbrev PyDict : Type := List (String × Value)

mutual
/-- Python `==` on `Value` (numeric types compare across `int`/`float`/`bool`;
dicts compare as key→value maps, order-insensitively). -/
def pyEq : Value → Value → Bool
  | Value.vInt a, Value.vInt b => a == b
  | Value.vInt a, Value.vFloat q => (a : ℚ) == q
  | Value.vFloat q, Value.vInt a => q == (a : ℚ)
  | Value.vFloat a, Value.vFloat b => a == b
  | Value.vBool a, Value.vBool b => a == b
  | Value.vBool a, Value.vInt b => (if a then (1 : Int) else 0) == b
  | Value.vInt a, Value.vBool b => a == (if b then (1 : Int) else 0)
  | Value.vBool a, Value.vFloat b => (if a then (1 : ℚ) else 0) == b
  | Value.vFloat a, Value.vBool b => a == (if b then (1 : ℚ) else 0)
  | Value.vStr a, Value.vStr b => a == b
  | Value.vNull, Value.vNull => true
  | Value.vList a, Value.vList b => pyEqList a b
  | Value.vDict a, Value.vDict b => a.length == b.length && pyEqDictSub a b
  | _, _ => false

def pyEqList : List Value → List Value → Bool
  | [], [] => true
  | x :: xs, y :: ys => pyEq x y && pyEqList xs ys
  | _, _ => false

def pyEqDictSub : List (String × Value) → List (String × Value) → Bool
  | [], _ => true
  | (k, v) :: rest, d => pyEqLookup v d k && pyEqDictSub rest d

def pyEqLookup : Value → List (String × Value) → String → Bool
  | _, [], _ => false
  | v, (k2, w) :: rest, k => if k2 == k then pyEq v w else pyEqLookup v rest k
end

/-- Python truthiness of a `Value`. -/
def pyTruthy : Value → Bool
  | Value.vInt n => n != 0
  | Value.vFloat q => q != 0
  | Value.vStr s => s != ""
  | Value.vBool b => b
  | Value.vNull => false
  | Value.vList xs => !xs.isEmpty
  | Value.vDict d => !d.isEmpty

/-- Python `str(...)` for the scalar values that reach evidence strings in the
claims (collections never do in any property proved here). -/
def pyStr : Value → String
  | Value.vInt n => toString n
  | Value.vFloat q => toString q
  | Value.vStr s => s
  | Value.vBool b => if b then "True" else "False"
  | Value.vNull => "None"
  | Value.vList _ => "[...]"
  | Value.vDict _ => "(dict)"

/-- `d[k]` lookup (first binding). -/
def dictLookup (d : PyDict) (k : String) : Option Value :=
  (d.find? (fun p => p.1 == k)).map (·.2)

/-- `k in d`. -/
def dictContains (d : PyDict) (k : String) : Bool :=
  (dictLookup d k).isSome

/-- Key list of a dict. -/
def dictKeys (d : PyDict) : List String :=
  d.map (·.1)

/-- Generic string-keyed association lookup. -/
def assocLookup {α : Type} (d : List (String × α)) (k : String) : Option α :=
  (d.find? (fun p => p.1 == k)).map (·.2)

/-- Helper of `dedupFirst`: drop elements already seen. -/
def dedupSeen {α : Type} [BEq α] : List α → List α → List α
  | [], _ => []
  | x :: xs, seen =>
      if seen.contains x then dedupSeen xs seen
      else x :: dedupSeen xs (x :: seen)

/-- Model of building a Python `set` from a list: drop duplicates, keeping
first occurrences. -/
def dedupFirst {α : Type} [BEq α] (l : List α) : List α :=
  dedupSeen l []

/-- `max(l)` for a nonempty list, `0.0` for the empty one (how the fusion
code guards `max(confidence_scores) if confidence_scores else 0.0`). -/
def qMax0 : List ℚ → ℚ
  | [] => 0
  | x :: xs => xs.foldl max x

/-- `max(l)` on a list known nonempty at the call sites (Python `max`). -/
def qMaxNe (x : ℚ) (xs : List ℚ) : ℚ := xs.foldl max x

/-- `min(l)` on a list known nonempty at the call sites (Python `min`). -/
def qMinNe (x : ℚ) (xs : List ℚ) : ℚ := xs.foldl min x

/-- Integer `max` over a nonempty list. -/
def iMaxNe (x : Int) (xs : List Int) : Int := xs.foldl max x

/-- Integer `min` over a nonempty list. -/
def iMinNe (x : Int) (xs : List Int) : Int := xs.foldl min x

/-- `needle`-is-initial-segment-of-`haystack` on character lists. -/
def charsHavePre : List Char → List Char → Bool
  | [], _ => true
  | _ :: _, [] => false
  | a :: as, b :: bs => a == b && charsHavePre as bs

/-- Substring occurrence on character lists. -/
def charsContain (haystack needle : List Char) : Bool :=
  match haystack with
  | [] => needle.isEmpty
  | _ :: rest => charsHavePre needle haystack || charsContain rest needle

/-- Python `needle in haystack` on strings. -/
def pySubstr (needle haystack : String) : Bool :=
  charsContain haystack.data needle.data

/-- Python `s.lower()` (ASCII letters; no string reached by a property
proved here mixes case outside ASCII). -/
def pyLower (s : String) : String :=
  String.mk (s.data.map Char.toLower)

/-- Helper of `pySplitWs`: split a character list on whitespace runs,
accumulating the current word reversed. -/
def splitWsAux : List Char → List Char → List String
  | [], acc => if acc.isEmpty then [] else [String.mk acc.reverse]
  | c :: rest, acc =>
      if c.isWhitespace then
        if acc.isEmpty then splitWsAux rest []
        else String.mk acc.reverse :: splitWsAux rest []
      else splitWsAux rest (c :: acc)

/-- Python `s.split()` with no argument: split on whitespace runs, dropping
empty pieces. -/
def pySplitWs (s : String) : List String :=
  splitWsAux s.data []

/-- Helper of `pySplitDot`: split a character list on `.` (keeping empty
pieces, like Python `s.split('.')`). -/
def splitDotAux : List Char → List Char → List String
  | [], acc => [String.mk acc.reverse]
  | c :: rest, acc =>
      if c == '.' then String.mk acc.reverse :: splitDotAux rest []
      else splitDotAux rest (c :: acc)

/-- Python `s.split('.')`. -/
def pySplitDot (s : String) : List String :=
  splitDotAux s.data []

/-! ## `src/core/patterns.py` -/

/-- `IDORType` enum; `value` is the Russian enum value string used as the
`type` field of every pattern finding. -/
inductive IDORType : Type where
  | horizontal
  | vertical
  | context_dependent
  | blind
deriving DecidableEq

def IDORType.value : IDORType → String
  | IDORType.horizontal => "горизонтальный"
  | IDORType.vertical => "вертикальный"
  | IDORType.context_dependent => "контекстно-зависимый"
  | IDORType.blind => "слепой"

/-- The keys of the `context` dict read by the patterns
(`ownership_field`, `current_user_id`, `user_role`); `none` models an
absent key. -/
structure PatternContext : Type where
  ownership_field : Option String
  current_user_id : Option Value
  user_role : Option Value

/-- `HorizontalIDORPattern.analyze` details dict. -/
structure HorizontalDetails : Type where
  owner_field : String
  current_user_id : Value
  accessed_owner_id : Value
  evidence : String

/-- `VerticalIDORPattern.analyze` details dict (the formatted evidence
string is presentation-only and carried as the two field lists). -/
structure VerticalDetails : Type where
  admin_fields : List String
  sensitive_fields : List String

/-- `ContextDependentIDORPattern.analyze` details dict. -/
structure ContextDetails : Type where
  status_issues : List String
  temporal_issues : List String

/-- `BlindIDORPattern.analyze` details dict (indicator strings are
presentation renderings of these same lists and are not duplicated). -/
structure BlindStructuralDetails : Type where
  new_fields : List String
  missing_fields : List String
  value_differences : List (String × Value × Value)
  id_fields : List String

inductive PatternDetails : Type where
  | horizontal (d : HorizontalDetails)
  | vertical (d : VerticalDetails)
  | contextDependent (d : ContextDetails)
  | blindStructural (d : BlindStructuralDetails)

/-- One entry of the list returned by `PatternMatcher.analyze`
(`pattern`, `type` = `idor_type.value`, `confidence`, `details`,
`description`, `type_ru` = same enum value string). -/
structure PatternFinding : Type where
  pattern : String
  idor_type : IDORType
  confidence : ℚ
  details : Option PatternDetails
  description : String

/-- `HorizontalIDORPattern.analyze` (patterns.py lines 45-67). -/
def horizontalAnalyze (response_data : PyDict) (ctx : PatternContext) :
    Bool × ℚ × Option PatternDetails :=
  let owner_field := ctx.ownership_field.getD "owner_id"
  let current_user_id := ctx.current_user_id.getD Value.vNull
  match dictLookup response_data owner_field with
  | some owner_id =>
      if pyEq owner_id current_user_id then (false, 0, none)
      else
        (true, 4/5, some (PatternDetails.horizontal
          { owner_field := owner_field
            current_user_id := current_user_id
            accessed_owner_id := owner_id
            evidence := "Accessed data owned by user " ++ pyStr owner_id ++
              " as user " ++ pyStr current_user_id }))
  | none => (false, 0, none)

/-- `value not in [None, False, 0, 'user']` (membership via Python `==`). -/
def adminFieldValueFlagged (v : Value) : Bool :=
  !(pyEq v Value.vNull || pyEq v (Value.vBool false) ||
    pyEq v (Value.vInt 0) || pyEq v (Value.vStr "user"))

/-- `VerticalIDORPattern.analyze` (patterns.py lines 80-110). -/
def verticalAnalyze (response_data : PyDict) :
    Bool × ℚ × Option PatternDetails :=
  let admin_fields := ["is_admin", "role", "permissions", "access_level"]
  let sensitive_fields := ["salary", "ssn", "credit_card", "internal_notes"]
  let found_admin := admin_fields.filter (fun f =>
    match dictLookup response_data f with
    | some v => adminFieldValueFlagged v
    | none => false)
  let found_sensitive := sensitive_fields.filter
    (fun f => dictContains response_data f)
  if !found_admin.isEmpty || !found_sensitive.isEmpty then
    (true, if !found_admin.isEmpty then 7/10 else 3/5,
     some (PatternDetails.vertical
       { admin_fields := found_admin, sensitive_fields := found_sensitive }))
  else (false, 0, none)

/-- `ContextDependentIDORPattern.analyze` (patterns.py lines 123-157). -/
def contextDependentAnalyze (response_data baseline_data : PyDict)
    (ctx : PatternContext) : Bool × ℚ × Option PatternDetails :=
  let status_fields := ["status", "state", "approved", "published", "active"]
  let temporal_fields := ["created_at", "updated_at", "expires_at"]
  let status_issues := status_fields.filterMap (fun f =>
    match dictLookup response_data f with
    | some v =>
        if (pyEq v (Value.vStr "approved") || pyEq v (Value.vStr "published") ||
            pyEq v (Value.vStr "active")) &&
           !(pyEq (ctx.user_role.getD Value.vNull) (Value.vStr "admin")) then
          some ("Accessed " ++ f ++ "=" ++ pyStr v ++ " as non-admin")
        else none
    | none => none)
  let temporal_issues := temporal_fields.filterMap (fun f =>
    match dictLookup response_data f, dictLookup baseline_data f with
    | some v, some w =>
        if !(pyEq v w) then some ("Different " ++ f ++ " values") else none
    | _, _ => none)
  if !status_issues.isEmpty || !temporal_issues.isEmpty then
    (true, 1/2,
     some (PatternDetails.contextDependent
       { status_issues := status_issues, temporal_issues := temporal_issues }))
  else (false, 0, none)

/-- Model of `re.match(r".*id$", k, re.IGNORECASE)`: the key ends with `id`
up to case (keys are assumed newline-free, as every key in the repository
is). -/
def looksLikeIdField (k : String) : Bool :=
  charsHavePre ['d', 'i'] (k.data.map Char.toLower).reverse

/-- `BlindIDORPattern.analyze` (patterns.py lines 170-225). -/
def blindStructuralAnalyze (response_data baseline_data : PyDict) :
    Bool × ℚ × Option PatternDetails :=
  let response_keys := dictKeys response_data
  let baseline_keys := dictKeys baseline_data
  let new_fields := dedupFirst (response_keys.filter
    (fun k => !(baseline_keys.contains k)))
  let missing_fields := dedupFirst (baseline_keys.filter
    (fun k => !(response_keys.contains k)))
  let common := dedupFirst (response_keys.filter
    (fun k => baseline_keys.contains k))
  let value_differences := common.filterMap (fun k =>
    match dictLookup response_data k, dictLookup baseline_data k with
    | some v, some w => if !(pyEq v w) then some (k, w, v) else none
    | _, _ => none)
  let id_fields := response_keys.filter looksLikeIdField
  let confidence : ℚ :=
    (if new_fields.length > 0 then 1/5 else 0) +
    (if missing_fields.length > 0 then 1/10 else 0) +
    (if value_differences.length > 3 then 3/10 else 0) +
    (if id_fields.length > 1 then 1/5 else 0)
  if confidence > 2/5 then
    (true, min confidence (4/5),
     some (PatternDetails.blindStructural
       { new_fields := new_fields
         missing_fields := missing_fields
         value_differences := value_differences
         id_fields := id_fields }))
  else (false, min confidence (4/5), none)

/-- The mutable per-pattern-object state: each `IDORPattern.__init__` sets a
`confidence` attribute; no `analyze` method ever writes it (they use local
variables), which is the content of the idempotence claim. -/
structure PatternMatcherState : Type where
  horizontal_confidence : ℚ
  vertical_confidence : ℚ
  context_confidence : ℚ
  blind_confidence : ℚ
deriving DecidableEq

/-- `PatternMatcher.__init__`: four freshly constructed pattern objects,
each with `confidence = 0.0`. -/
def patternMatcherInitState : PatternMatcherState :=
  { horizontal_confidence := 0, vertical_confidence := 0,
    context_confidence := 0, blind_confidence := 0 }

/-- Wrap one pattern result into the dict appended by
`PatternMatcher.analyze` (patterns.py lines 247-260). -/
def mkPatternFinding (name : String) (t : IDORType) (descr : String)
    (r : Bool × ℚ × Option PatternDetails) : List PatternFinding :=
  if r.1 then
    [{ pattern := name, idor_type := t, confidence := r.2.1,
       details := r.2.2, description := descr }]
  else []

/-- `PatternMatcher.analyze` (patterns.py lines 239-262), with the mutable
pattern-object state threaded explicitly.  No `analyze` method of any
pattern assigns `self.confidence`, so the state is returned unchanged. -/
def patternMatcherAnalyze (st : PatternMatcherState)
    (response_data baseline_data : PyDict) (ctx : PatternContext) :
    PatternMatcherState × List PatternFinding :=
  (st,
    mkPatternFinding "Горизонтальный IDOR" IDORType.horizontal
      "Доступ к данным других пользователей на том же уровне привилегий"
      (horizontalAnalyze response_data ctx) ++
    mkPatternFinding "Вертикальный IDOR" IDORType.vertical
      "Доступ с повышением привилегий или к административным функциям"
      (verticalAnalyze response_data) ++
    mkPatternFinding "Контекстно-зависимый IDOR" IDORType.context_dependent
      "IDOR зависящий от бизнес-контекста или состояния"
      (contextDependentAnalyze response_data baseline_data ctx) ++
    mkPatternFinding "Слепая детекция IDOR" IDORType.blind
      "Детекция IDOR через косвенные признаки"
      (blindStructuralAnalyze response_data baseline_data))

/-! ## `src/core/heuristic.py` -/

/-- Python `l[-n:]`. -/
def lastN {α : Type} (l : List α) (n : Nat) : List α :=
  l.drop (l.length - n)

/-- `ResponseMetrics` dataclass (heuristic.py lines 19-28). -/
structure ResponseMetrics : Type where
  status_code : Int
  response_time : ℚ
  content_length : Int
  content_type : String
  headers : List (String × String)
  body : String
  json_data : Option PyDict

/-- `HeuristicAnalyzer.__init__` state: the baseline and the append-only
response history (the threshold dict holds only constants, inlined below). -/
structure HeuristicState : Type where
  baseline_metrics : Option ResponseMetrics
  response_history : List ResponseMetrics

/-- A freshly constructed `HeuristicAnalyzer`. -/
def heuristicInit : HeuristicState :=
  { baseline_metrics := none, response_history := [] }

/-- `HeuristicAnalyzer.set_baseline` (heuristic.py lines 52-55): stores the
baseline and appends it to the history; nothing is cleared. -/
def setBaseline (s : HeuristicState) (m : ResponseMetrics) : HeuristicState :=
  { baseline_metrics := some m,
    response_history := s.response_history ++ [m] }

/-- `self.thresholds['error_patterns']` (literal strings used via substring
matching). -/
def heuristicErrorPatterns : List String :=
  ["not found", "access denied", "forbidden", "unauthorized",
   "permission denied"]

/-- Output dict of `_analyze_response_time` (heuristic.py lines 119-133). -/
structure TimeAnalysis : Type where
  is_anomaly : Bool
  baseline_time : ℚ
  current_time : ℚ
  difference : ℚ
  ratio : ℚ
deriving DecidableEq

/-- `_analyze_response_time`: anomaly when `|Δt| > 0.5` or the ratio to a
positive baseline exceeds 2. -/
def analyzeResponseTime (b m : ResponseMetrics) : TimeAnalysis :=
  let time_diff := |m.response_time - b.response_time|
  let time_ratio := if b.response_time > 0 then time_diff / b.response_time else 0
  { is_anomaly := decide (time_diff > 1/2) || decide (time_ratio > 2),
    baseline_time := b.response_time, current_time := m.response_time,
    difference := time_diff, ratio := time_ratio }

/-- Output of `_analyze_content_size` (heuristic.py lines 135-152); the
`zero_baseline` constructor is the early-return reason dict. -/
inductive SizeAnalysis : Type where
  | zeroBaseline
  | result (is_anomaly : Bool) (baseline_size current_size difference : Int)
      (ratio : ℚ)
deriving DecidableEq

def SizeAnalysis.isAnomaly : SizeAnalysis → Bool
  | SizeAnalysis.zeroBaseline => false
  | SizeAnalysis.result a _ _ _ _ => a

/-- `_analyze_content_size`: anomaly when the relative size delta exceeds
30% of a nonzero baseline. -/
def analyzeContentSize (b m : ResponseMetrics) : SizeAnalysis :=
  if b.content_length == 0 then SizeAnalysis.zeroBaseline
  else
    let size_diff := |m.content_length - b.content_length|
    let size_ratio : ℚ := (size_diff : ℚ) / (b.content_length : ℚ)
    SizeAnalysis.result (decide (size_ratio > 3/10))
      b.content_length m.content_length size_diff size_ratio

/-- Output dict of `_analyze_headers` (heuristic.py lines 154-190). -/
structure HeaderAnalysis : Type where
  is_anomaly : Bool
  new_headers : List String
  missing_headers : List String
  security_changes : List String
  auth_changes : List String
deriving DecidableEq

/-- `_analyze_headers`: new/missing header keys, and value changes of the
fixed security and auth header lists. -/
def analyzeHeaders (b m : ResponseMetrics) : HeaderAnalysis :=
  let bKeys := b.headers.map (·.1)
  let mKeys := m.headers.map (·.1)
  let new_headers := dedupFirst (mKeys.filter (fun k => !(bKeys.contains k)))
  let missing_headers := dedupFirst (bKeys.filter (fun k => !(mKeys.contains k)))
  let changedOf := fun (hs : List String) => hs.filter (fun h =>
    match assocLookup b.headers h, assocLookup m.headers h with
    | some bv, some mv => bv != mv
    | _, _ => false)
  let security_changes := changedOf
    ["x-frame-options", "x-content-type-options", "x-xss-protection"]
  let auth_changes := changedOf ["authorization", "x-auth-token", "session"]
  { is_anomaly := !new_headers.isEmpty || !missing_headers.isEmpty ||
      !security_changes.isEmpty || !auth_changes.isEmpty,
    new_headers := new_headers, missing_headers := missing_headers,
    security_changes := security_changes, auth_changes := auth_changes }

/-- `_calculate_similarity` (heuristic.py lines 303-315): Jaccard overlap of
lower-cased whitespace tokens; 0 when either text is empty. -/
def calculateSimilarity (text1 text2 : String) : ℚ :=
  if text1 == "" || text2 == "" then 0
  else
    let words1 := dedupFirst (pySplitWs (pyLower text1))
    let words2 := dedupFirst (pySplitWs (pyLower text2))
    let inter := words1.filter (fun w => words2.contains w)
    let union := words1 ++ words2.filter (fun w => !(words1.contains w))
    if union.isEmpty then 0 else (inter.length : ℚ) / (union.length : ℚ)

/-- Output dict of `_analyze_content` (heuristic.py lines 192-225). -/
structure ContentAnalysis : Type where
  is_anomaly : Bool
  error_indicators : List String
  redirect_found : Bool
  html_in_json : Bool
  similarity : ℚ
  length_diff : Int
deriving DecidableEq

/-- `_analyze_content`: error keywords, redirect markers, HTML markup in a
JSON-typed response, or token similarity below 0.7. -/
def analyzeContent (b m : ResponseMetrics) : ContentAnalysis :=
  let current_lower := pyLower m.body
  let error_indicators := heuristicErrorPatterns.filter
    (fun p => pySubstr (pyLower p) current_lower)
  let redirect_found := ["redirect", "location", "moved"].any
    (fun w => pySubstr w current_lower)
  let html_in_json := m.content_type != "" &&
    pySubstr "json" (pyLower m.content_type) &&
    (["<html", "<body", "<div", "<script"].any
      (fun w => pySubstr w current_lower))
  let similarity := calculateSimilarity b.body m.body
  { is_anomaly := !error_indicators.isEmpty || redirect_found ||
      html_in_json || decide (similarity < 7/10),
    error_indicators := error_indicators, redirect_found := redirect_found,
    html_in_json := html_in_json, similarity := similarity,
    length_diff := (m.body.length : Int) - (b.body.length : Int) }

mutual
/-- `_flatten_json_keys` (heuristic.py lines 317-333): nested key paths of a
JSON dict, recursing into dict values and into lists whose first element is
a dict. -/
def flattenJsonKeys : List (String × Value) → String → List String
  | [], _ => []
  | (k, v) :: rest, pre =>
      let full := if pre == "" then k else pre ++ "." ++ k
      full :: (flattenChildKeys v full ++ flattenJsonKeys rest pre)

def flattenChildKeys : Value → String → List String
  | Value.vDict d, full => flattenJsonKeys d full
  | Value.vList l, full =>
      (match l with
       | Value.vDict _ :: _ => flattenListKeys l full 0
       | _ => [])
  | _, _ => []

def flattenListKeys : List Value → String → Nat → List String
  | [], _, _ => []
  | x :: xs, full, i =>
      (match x with
       | Value.vDict d => flattenJsonKeys d (full ++ "[" ++ toString i ++ "]")
       | _ => []) ++ flattenListKeys xs full (i + 1)
end

/-- `_get_nested_value` (heuristic.py lines 335-346): walk the dot-separated
path through nested dicts, `None` (here `none`) on a miss. -/
def getNestedValue (d : PyDict) (key_path : String) : Option Value :=
  let rec walk : List String → Value → Option Value
    | [], cur => some cur
    | k :: rest, cur =>
        match cur with
        | Value.vDict dd =>
            match dictLookup dd k with
            | some v => walk rest v
            | none => none
        | _ => none
  walk (pySplitDot key_path) (Value.vDict d)

/-- Python `type(...)` name for a value looked up by `_get_nested_value`
(`none` is Python `None`). -/
def pyTypeName : Option Value → String
  | none => "NoneType"
  | some (Value.vInt _) => "int"
  | some (Value.vFloat _) => "float"
  | some (Value.vStr _) => "str"
  | some (Value.vBool _) => "bool"
  | some Value.vNull => "NoneType"
  | some (Value.vList _) => "list"
  | some (Value.vDict _) => "dict"

/-- Output of `_analyze_json_structure` (heuristic.py lines 227-270); the
`noBaselineJson` constructor is the early-return reason dict. -/
inductive JsonAnalysis : Type where
  | noBaselineJson
  | result (is_anomaly : Bool)
      (new_keys missing_keys type_changes value_changes : List String)
      (total_changes : Nat)
deriving DecidableEq

def JsonAnalysis.isAnomaly : JsonAnalysis → Bool
  | JsonAnalysis.noBaselineJson => false
  | JsonAnalysis.result a _ _ _ _ _ => a

/-- `_analyze_json_structure`: flattened-key set differences, type changes
and value changes between matching keys (anomaly on any new/missing key, any
type change, or more than 3 value changes). -/
def analyzeJsonStructure (b m : ResponseMetrics) : JsonAnalysis :=
  match b.json_data with
  | none => JsonAnalysis.noBaselineJson
  | some bj =>
      if bj.isEmpty then JsonAnalysis.noBaselineJson
      else
        let cj := m.json_data.getD []
        let baseline_keys := dedupFirst (flattenJsonKeys bj "")
        let current_keys := dedupFirst (flattenJsonKeys cj "")
        let new_keys := current_keys.filter
          (fun k => !(baseline_keys.contains k))
        let missing_keys := baseline_keys.filter
          (fun k => !(current_keys.contains k))
        let common := baseline_keys.filter (fun k => current_keys.contains k)
        let type_changes := common.filter (fun k =>
          pyTypeName (getNestedValue bj k) != pyTypeName (getNestedValue cj k))
        let value_changes := common.filter (fun k =>
          !(pyEq ((getNestedValue bj k).getD Value.vNull)
              ((getNestedValue cj k).getD Value.vNull)))
        JsonAnalysis.result
          (!new_keys.isEmpty || !missing_keys.isEmpty ||
            !type_changes.isEmpty || value_changes.length > 3)
          new_keys missing_keys type_changes value_changes
          (new_keys.length + missing_keys.length + type_changes.length +
            value_changes.length)

/-- Output of `_combined_analysis` (heuristic.py lines 272-301); the
`insufficientHistory` constructor is the early-return reason dict. -/
inductive CombinedAnalysis : Type where
  | insufficientHistory
  | result (is_anomaly status_variance time_variance size_variance : Bool)
      (recent_status_codes : List Int) (avg_response_time : ℚ)
deriving DecidableEq

def CombinedAnalysis.isAnomaly : CombinedAnalysis → Bool
  | CombinedAnalysis.insufficientHistory => false
  | CombinedAnalysis.result a _ _ _ _ _ => a

/-- `_combined_analysis`: over the last 5 history entries (the history at
call time, which does not yet include the response being analyzed), flag
more than one distinct status code, a response-time spread above 1 second,
or a content-length spread above 1000. Requires at least 3 prior entries. -/
def combinedAnalysis (history : List ResponseMetrics) : CombinedAnalysis :=
  if history.length < 3 then CombinedAnalysis.insufficientHistory
  else
    let recent := lastN history 5
    let status_codes := recent.map (·.status_code)
    let status_variance := (dedupFirst status_codes).length > 1
    let response_times := recent.map (·.response_time)
    let content_sizes := recent.map (·.content_length)
    match response_times, content_sizes with
    | t :: ts, c :: cs =>
        let time_variance := decide (qMaxNe t ts - qMinNe t ts > 1)
        let size_variance := decide (iMaxNe c cs - iMinNe c cs > 1000)
        CombinedAnalysis.result
          (status_variance || time_variance || size_variance)
          status_variance time_variance size_variance
          (lastN status_codes 3)
          ((lastN response_times 3).sum / 3)
    | _, _ => CombinedAnalysis.insufficientHistory

/-- The `details` sub-dict of an `analyze_response` result: each key is
present exactly when the corresponding dimension was anomalous. -/
structure HeuristicDetails : Type where
  response_time : Option TimeAnalysis
  content_size : Option SizeAnalysis
  headers : Option HeaderAnalysis
  content : Option ContentAnalysis
  json_structure : Option JsonAnalysis
  combined : Option CombinedAnalysis
deriving DecidableEq

/-- The normal result dict of `analyze_response`. -/
structure HeuristicResult : Type where
  is_suspicious : Bool
  confidence : ℚ
  indicators : List String
  details : HeuristicDetails
deriving DecidableEq

/-- `analyze_response` returns either the normal result dict or the
baseline-missing error dict `getErrorDict msg` standing for
`\x7b'error': msg\x7d` (the code returns a value; it raises nothing). -/
inductive AnalyzeOutput : Type where
  | errorDict (msg : String)
  | ok (r : HeuristicResult)
deriving DecidableEq

def AnalyzeOutput.isOk : AnalyzeOutput → Bool
  | AnalyzeOutput.errorDict _ => false
  | AnalyzeOutput.ok _ => true

/-- `HeuristicAnalyzer.analyze_response` (heuristic.py lines 57-117): the
six dimensions contribute 0.2/0.2/0.15/0.25/0.2/0.1 additively;
`is_suspicious` is decided on the uncapped sum, which is then capped at
0.95; the response is appended to the history afterwards. With no baseline
the error dict is returned and the state is untouched. -/
def analyzeResponse (s : HeuristicState) (m : ResponseMetrics) :
    HeuristicState × AnalyzeOutput :=
  match s.baseline_metrics with
  | none => (s, AnalyzeOutput.errorDict "No baseline established")
  | some b =>
      let ta := analyzeResponseTime b m
      let sa := analyzeContentSize b m
      let ha := analyzeHeaders b m
      let ca := analyzeContent b m
      let jsonActive := match m.json_data with
        | some d => !d.isEmpty
        | none => false
      let ja := analyzeJsonStructure b m
      let ga := combinedAnalysis s.response_history
      let indicators :=
        (if ta.is_anomaly then ["response_time_anomaly"] else []) ++
        (if sa.isAnomaly then ["content_size_anomaly"] else []) ++
        (if ha.is_anomaly then ["header_anomaly"] else []) ++
        (if ca.is_anomaly then ["content_anomaly"] else []) ++
        (if jsonActive && ja.isAnomaly then ["json_structure_anomaly"] else []) ++
        (if ga.isAnomaly then ["combined_anomaly"] else [])
      let confidence : ℚ :=
        (if ta.is_anomaly then 1/5 else 0) +
        (if sa.isAnomaly then 1/5 else 0) +
        (if ha.is_anomaly then 3/20 else 0) +
        (if ca.is_anomaly then 1/4 else 0) +
        (if jsonActive && ja.isAnomaly then 1/5 else 0) +
        (if ga.isAnomaly then 1/10 else 0)
      let details : HeuristicDetails :=
        { response_time := if ta.is_anomaly then some ta else none
          content_size := if sa.isAnomaly then some sa else none
          headers := if ha.is_anomaly then some ha else none
          content := if ca.is_anomaly then some ca else none
          json_structure := if jsonActive && ja.isAnomaly then some ja else none
          combined := if ga.isAnomaly then some ga else none }
      ({ s with response_history := s.response_history ++ [m] },
       AnalyzeOutput.ok
         { is_suspicious := indicators.length ≥ 2 || decide (confidence > 1/2),
           confidence := min confidence (19/20),
           indicators := indicators, details := details })

/-! ## `src/core/differential.py` -/

/-- One entry of the `access_results` dict built by
`_analyze_object_access` (differential.py lines 74-104): either the
success-shaped dict (status, timing, length, parsed JSON body or `None`,
accessibility flag) or the exception-shaped dict (error string,
`accessible = False`). -/
inductive AccessResult : Type where
  | success (status_code : Int) (response_time : ℚ) (content_length : Int)
      (data : Option PyDict) (accessible : Bool)
  | failure (error : String)

/-- `result.get('status_code', 0)`. -/
def AccessResult.statusCode : AccessResult → Int
  | AccessResult.success s _ _ _ _ => s
  | AccessResult.failure _ => 0

/-- `result.get('response_time', 0.0)`. -/
def AccessResult.responseTime : AccessResult → ℚ
  | AccessResult.success _ t _ _ _ => t
  | AccessResult.failure _ => 0

/-- `result.get('content_length', 0)`. -/
def AccessResult.contentLength : AccessResult → Int
  | AccessResult.success _ _ l _ _ => l
  | AccessResult.failure _ => 0

/-- `result.get('accessible')` (stored `False` on the failure shape). -/
def AccessResult.accessible : AccessResult → Bool
  | AccessResult.success _ _ _ _ a => a
  | AccessResult.failure _ => false

/-- `result.get('data', {})`: the failure shape has no `data` key, so the
`\x7b\x7d` default applies; the success shape stores a dict or Python
`None` (`none` here, on which the Python code would raise — excluded by
hypothesis wherever a theorem touches it). -/
def AccessResult.dataGet : AccessResult → Option PyDict
  | AccessResult.success _ _ _ d _ => d
  | AccessResult.failure _ => some []

/-- The `access_results` map, keyed by `AccessLevel.value` strings
(`guest`/`user`/`premium`/`admin`/`super_admin`) in insertion order. -/
abbrev AccessResults : Type := List (String × AccessResult)

def lookupAcc (ar : AccessResults) (k : String) : Option AccessResult :=
  assocLookup ar k

/-- `access_results.get(level, {}).get('accessible')` truthiness. -/
def accAccessible (o : Option AccessResult) : Bool :=
  match o with
  | some r => r.accessible
  | none => false

/-- `access_results.get(level, {}).get('data', {})`. -/
def accData (o : Option AccessResult) : Option PyDict :=
  match o with
  | some r => r.dataGet
  | none => some []

/-- The `\x7b'detected', 'confidence', 'details'\x7d` dict every
`_check_*` helper returns. -/
structure CheckResult (α : Type) : Type where
  detected : Bool
  confidence : ℚ
  details : α
deriving DecidableEq

/-- Details of `_check_privilege_escalation`. -/
structure PEDetails : Type where
  admin_only_fields : List String
  different_fields : List (String × Value × Value)
  guest_access : Bool

/-- `_check_privilege_escalation` (differential.py lines 163-209):
admin-only fields or differing fields between accessible `user` and `admin`
payloads (0.7 with admin-only fields, else 0.5); an accessible `guest`
alongside an accessible `user` forces detection with confidence
`max(·, 0.8)`. -/
def checkPrivilegeEscalation (ar : AccessResults) : CheckResult PEDetails :=
  let user_access := lookupAcc ar "user"
  let admin_access := lookupAcc ar "admin"
  let guest_access := lookupAcc ar "guest"
  let step1 :=
    if accAccessible user_access && accAccessible admin_access then
      let user_data := (accData user_access).getD []
      let admin_data := (accData admin_access).getD []
      let admin_only_fields := dedupFirst ((dictKeys admin_data).filter
        (fun k => !(dictKeys user_data).contains k))
      let common := dedupFirst ((dictKeys user_data).filter
        (fun k => (dictKeys admin_data).contains k))
      let different_fields := common.filterMap (fun k =>
        match dictLookup user_data k, dictLookup admin_data k with
        | some uv, some av => if !(pyEq uv av) then some (k, uv, av) else none
        | _, _ => none)
      if !admin_only_fields.isEmpty || !different_fields.isEmpty then
        { detected := true,
          confidence := if !admin_only_fields.isEmpty then 7/10 else 1/2,
          details := { admin_only_fields := admin_only_fields,
                       different_fields := different_fields,
                       guest_access := false } }
      else
        ({ detected := false, confidence := 0,
           details := { admin_only_fields := [], different_fields := [],
                        guest_access := false } } : CheckResult PEDetails)
    else
      ({ detected := false, confidence := 0,
         details := { admin_only_fields := [], different_fields := [],
                      guest_access := false } } : CheckResult PEDetails)
  if accAccessible guest_access && accAccessible user_access then
    { detected := true, confidence := max step1.confidence (4/5),
      details := { step1.details with guest_access := true } }
  else step1

/-- One entry of `exposed_fields` (the `value_preview` truncation is a
presentation rendering of `value`). -/
structure ExposedField : Type where
  field : String
  access_level : String
  value : Value

/-- `_check_data_exposure` (differential.py lines 211-244): scan every
level whose `data` is a truthy dict for truthy values of the fixed
sensitive-field list; any hit detects with confidence 0.6. -/
def checkDataExposure (ar : AccessResults) : CheckResult (List ExposedField) :=
  let sensitive_fields :=
    ["password", "ssn", "credit_card", "email", "phone", "address"]
  let exposed_fields := ar.flatMap (fun p =>
    match p.2 with
    | AccessResult.success _ _ _ (some d) _ =>
        if d.isEmpty then []
        else sensitive_fields.filterMap (fun f =>
          match dictLookup d f with
          | some v =>
              if pyTruthy v then
                some { field := f, access_level := p.1, value := v }
              else none
          | none => none)
    | _ => [])
  if !exposed_fields.isEmpty then
    { detected := true, confidence := 3/5, details := exposed_fields }
  else
    { detected := false, confidence := 0, details := [] }

/-- Details of `_check_authorization_bypass`; the second branch overwrites
the first one's details dict, mirrored by the constructor choice. -/
inductive AuthBypassDetails : Type where
  | noDetails
  | guestHigher (guest_status user_status : Int)
  | uniformAccess
deriving DecidableEq

/-- `_check_authorization_bypass` (differential.py lines 246-285): guest
200 with non-200 user detects at 0.8; all configured levels sharing one
identical status equal to 200 detects at 0.6 (assigned after — and hence
overwriting — the first branch). -/
def checkAuthorizationBypass (ar : AccessResults) :
    CheckResult AuthBypassDetails :=
  let status_codes := ar.map (fun p => (p.1, p.2.statusCode))
  let guest_status := (assocLookup status_codes "guest").getD 0
  let user_status := (assocLookup status_codes "user").getD 0
  let branch1 := guest_status == 200 && user_status != 200
  let unique_statuses := dedupFirst (status_codes.map (·.2))
  let branch2 := unique_statuses.length == 1 && unique_statuses.contains 200
  { detected := branch1 || branch2,
    confidence := if branch2 then 3/5 else if branch1 then 4/5 else 0,
    details :=
      if branch2 then AuthBypassDetails.uniformAccess
      else if branch1 then AuthBypassDetails.guestHigher guest_status user_status
      else AuthBypassDetails.noDetails }

/-- Details of `_check_functionality_access`: the size-anomaly dict and the
`time_anomaly` sub-dict, each present when its branch fired. -/
structure FADetails : Type where
  size_ratio : Option ℚ
  time_ratio : Option ℚ

/-- `_check_functionality_access` (differential.py lines 287-344): a
max/min content-length ratio above 3 (confidence 0.5) or a max/min
response-time ratio above 2 (confidence `max(·, 0.4)`), each requiring
more than one level and strictly positive extremes. -/
def checkFunctionalityAccess (ar : AccessResults) : CheckResult FADetails :=
  let sizes := ar.map (fun p => p.2.contentLength)
  let step1 :=
    match sizes with
    | s :: ss =>
        if ss.isEmpty then
          ({ detected := false, confidence := 0,
             details := { size_ratio := none, time_ratio := none } } :
            CheckResult FADetails)
        else
          let max_size := iMaxNe s ss
          let min_size := iMinNe s ss
          if max_size > 0 && min_size > 0 then
            let size_ratio : ℚ := (max_size : ℚ) / (min_size : ℚ)
            if size_ratio > 3 then
              { detected := true, confidence := 1/2,
                details := { size_ratio := some size_ratio, time_ratio := none } }
            else
              ({ detected := false, confidence := 0,
                 details := { size_ratio := none, time_ratio := none } } :
                CheckResult FADetails)
          else
            ({ detected := false, confidence := 0,
               details := { size_ratio := none, time_ratio := none } } :
              CheckResult FADetails)
    | [] =>
        ({ detected := false, confidence := 0,
           details := { size_ratio := none, time_ratio := none } } :
          CheckResult FADetails)
  let times := ar.map (fun p => p.2.responseTime)
  match times with
  | t :: ts =>
      if ts.isEmpty then step1
      else
        let max_time := qMaxNe t ts
        let min_time := qMinNe t ts
        if max_time > 0 && min_time > 0 then
          let time_ratio := max_time / min_time
          if time_ratio > 2 then
            { detected := true, confidence := max step1.confidence (2/5),
              details := { step1.details with time_ratio := some time_ratio } }
          else step1
        else step1
  | [] => step1

/-- The `evidence` dict of a `DifferentialResult`: one key per check that
detected. -/
structure DiffEvidence : Type where
  privilege_escalation : Option (CheckResult PEDetails)
  data_exposure : Option (CheckResult (List ExposedField))
  auth_bypass : Option (CheckResult AuthBypassDetails)
  functionality_access : Option (CheckResult FADetails)

/-- `DifferentialResult` dataclass (differential.py lines 29-37). -/
structure DifferentialResult : Type where
  object_id : Int
  vulnerability_type : String
  confidence : ℚ
  access_level_diff : AccessResults
  evidence : DiffEvidence
  risk_score : ℚ

/-- `_analyze_differential_patterns` (differential.py lines 106-161): run
the four checks, combine type (first detected wins through Python `or`),
confidence (max), and the weighted risk sum with weights 0.4 / 0.3 / 0.1 /
0.2; a result is returned only when a type was identified and the combined
confidence exceeds 0.3, with the risk score capped at 1.0. -/
def analyzeDifferentialPatterns (object_id : Int) (ar : AccessResults) :
    Option DifferentialResult :=
  let pe := checkPrivilegeEscalation ar
  let de := checkDataExposure ar
  let ab := checkAuthorizationBypass ar
  let fa := checkFunctionalityAccess ar
  let s1 : Option String × ℚ × ℚ :=
    if pe.detected then (some "privilege_escalation", pe.confidence,
      (2/5 : ℚ) * pe.confidence)
    else (none, 0, 0)
  let s2 : Option String × ℚ × ℚ :=
    if de.detected then
      (some (s1.1.getD "data_exposure"), max s1.2.1 de.confidence,
       s1.2.2 + (3/10 : ℚ) * de.confidence)
    else s1
  let s3 : Option String × ℚ × ℚ :=
    if ab.detected then
      (some (s2.1.getD "auth_bypass"), max s2.2.1 ab.confidence,
       s2.2.2 + (1/10 : ℚ) * ab.confidence)
    else s2
  let s4 : Option String × ℚ × ℚ :=
    if fa.detected then
      (some (s3.1.getD "functionality_access"), max s3.2.1 fa.confidence,
       s3.2.2 + (1/5 : ℚ) * fa.confidence)
    else s3
  match s4.1 with
  | some vt =>
      if s4.2.1 > 3/10 then
        some { object_id := object_id, vulnerability_type := vt,
               confidence := s4.2.1, access_level_diff := ar,
               evidence :=
                 { privilege_escalation := if pe.detected then some pe else none
                   data_exposure := if de.detected then some de else none
                   auth_bypass := if ab.detected then some ab else none
                   functionality_access := if fa.detected then some fa else none },
               risk_score := min s4.2.2 1 }
      else none
  | none => none

/-- The combined confidence of a differential analysis as the spec phrases
it: the maximum confidence among the checks that detected (0 when none
did).  The code computes it as a chain of assignments and `max`; the C8
theorem proves the two agree. -/
def diffCombinedConfidence (ar : AccessResults) : ℚ :=
  qMax0
    ((if (checkPrivilegeEscalation ar).detected then
        [(checkPrivilegeEscalation ar).confidence] else []) ++
     (if (checkDataExposure ar).detected then
        [(checkDataExposure ar).confidence] else []) ++
     (if (checkAuthorizationBypass ar).detected then
        [(checkAuthorizationBypass ar).confidence] else []) ++
     (if (checkFunctionalityAccess ar).detected then
        [(checkFunctionalityAccess ar).confidence] else []))

/-! ## `src/core/blind_detector.py` (timing technique, analysis phase) -/

/-- One anomaly dict appended by `_timing_based_detection` (blind_detector.py
lines 113-125).  The code stores `z_score = |avg - mean| / stdev`; the
sample standard deviation is an irrational square root, so this embedding
carries the squared z-score `z_sq = (avg - mean)^2 / variance`.  Every
comparison the code performs on z-scores (`z_score > 2.0`, `max`) is
strictly monotone in the square over nonnegative z-scores, so the flagged
set and the ordering are unchanged. -/
structure TimingAnomaly : Type where
  object_id : Int
  time : ℚ
  z_sq : ℚ
  difference : ℚ
deriving DecidableEq

/-- The per-id timing table built by the request loop (blind_detector.py
lines 85-104): id ↦ mean of 3 request times, `none` standing for the
`float('inf')` written when a request raised. -/
abbrev TimingData : Type := List (Int × Option ℚ)

/-- The outlier scan of `_timing_based_detection` (blind_detector.py lines
106-125): with more than 2 valid samples, compute the mean and the sample
standard deviation (`statistics.stdev`, denominator `n - 1`) and flag every
id whose z-score exceeds 2 (`z_score` is set to 0 when the deviation is 0).
`|d| / s > 2  ↔  0 < s² ∧ d² > 4 s²` is used to stay in `ℚ`. -/
def timingAnomalies (timing_data : TimingData) : List TimingAnomaly :=
  let times := timing_data.filterMap (·.2)
  if times.length > 2 then
    let n : ℚ := times.length
    let mean_time := times.sum / n
    let var_s := (times.map (fun x => (x - mean_time) * (x - mean_time))).sum / (n - 1)
    timing_data.filterMap (fun p =>
      match p.2 with
      | some avg =>
          let d := avg - mean_time
          if decide (0 < var_s) && decide (d * d > 4 * var_s) then
            some { object_id := p.1, time := avg,
                   z_sq := d * d / var_s, difference := d }
          else none
      | none => none)
  else []

/-- The ids flagged as timing outliers. -/
def timingFlaggedObjectIds (timing_data : TimingData) : List Int :=
  (timingAnomalies timing_data).map (·.object_id)

/-- The `BlindTestResult` produced by the timing technique (blind_detector.py
lines 127-139), with squared z-scores as discussed on `TimingAnomaly`. -/
structure TimingBlindResult : Type where
  confidence : ℚ
  timing_anomalies : List TimingAnomaly
  mean_time : ℚ
  std_dev_sq : ℚ
  anomaly_score_sq : ℚ
deriving DecidableEq

/-- Result list of `_timing_based_detection` for one full id-set pass: at
most one result, appended only when at least one id was flagged.  The
confidence denominator `len(object_ids)` equals the size of the timing
table (one entry per requested id). -/
def timingBasedDetection (timing_data : TimingData) : List TimingBlindResult :=
  let times := timing_data.filterMap (·.2)
  if times.length > 2 then
    let n : ℚ := times.length
    let mean_time := times.sum / n
    let var_s := (times.map (fun x => (x - mean_time) * (x - mean_time))).sum / (n - 1)
    let anomalies := timingAnomalies timing_data
    match anomalies with
    | [] => []
    | a :: rest =>
        [{ confidence :=
             min ((anomalies.length : ℚ) / (timing_data.length : ℚ)) (4/5),
           timing_anomalies := anomalies, mean_time := mean_time,
           std_dev_sq := var_s,
           anomaly_score_sq := qMaxNe a.z_sq (rest.map (·.z_sq)) }]
  else []

/-! ## `src/core/advanced_detector.py` — result fusion -/

/-- `DetectionMethod` enum of the blind detector. -/
inductive DetectionMethod : Type where
  | timing_based
  | error_pattern
  | response_variance
  | behavioral
  | side_channel
deriving DecidableEq

def DetectionMethod.value : DetectionMethod → String
  | DetectionMethod.timing_based => "timing_based"
  | DetectionMethod.error_pattern => "error_pattern"
  | DetectionMethod.response_variance => "response_variance"
  | DetectionMethod.behavioral => "behavioral"
  | DetectionMethod.side_channel => "side_channel"

/-- One entry of an `anomalies` list inside blind evidence, restricted to
the only key the fusion code reads (`object_id`, possibly absent). -/
structure BlindAnomalyRef : Type where
  object_id : Option Int

/-- A `BlindTestResult.evidence` dict, restricted to the keys the fusion
code reads: whether a key literally named `evidence` is present, and the
top-level `anomalies` list if present. -/
structure BlindEvidence : Type where
  has_evidence_key : Bool
  anomalies : Option (List BlindAnomalyRef)

/-- A `BlindTestResult` as consumed by fusion (`method`, `confidence`,
`evidence`, `anomaly_score`). -/
structure BlindFinding : Type where
  method : DetectionMethod
  confidence : ℚ
  evidence : BlindEvidence
  anomaly_score : ℚ

/-- The evidence payload attached to a fused vulnerability dict. -/
inductive VulnEvidence : Type where
  | payload (v : Value)
  | heuristic (r : HeuristicResult)
  | differential (e : DiffEvidence)
  | blind (e : BlindEvidence)

/-- A vulnerability dict as handled by `_combine_detection_results`:
`type`, optional `confidence`, optional `risk_score`, evidence payload.
(The strategy-supplied pattern dicts always carry `confidence` and never
`risk_score`; fusion reads both keys guardedly, hence the `Option`s.) -/
structure Vuln : Type where
  vtype : String
  confidence : Option ℚ
  risk_score : Option ℚ
  evidence : VulnEvidence

/-- `AdvancedIDORDetector.VULNERABILITY_TYPES_RU` (advanced_detector.py
lines 41-70). -/
def vulnerabilityTypesRu : List (String × String) :=
  [("horizontal", "Горизонтальный IDOR"),
   ("vertical", "Вертикальный IDOR"),
   ("context_dependent", "Контекстно-зависимый IDOR"),
   ("blind", "Слепая детекция"),
   ("pattern_based", "Паттерн-матчинг"),
   ("heuristic", "Эвристический анализ"),
   ("differential", "Дифференциальный анализ"),
   ("heuristic_anomaly", "Эвристическая аномалия"),
   ("content_size_difference", "Различие в размере контента"),
   ("html_id_parameter", "ID параметр в HTML"),
   ("privilege_escalation", "Повышение привилегий"),
   ("data_exposure", "Раскрытие данных"),
   ("auth_bypass", "Обход аутентификации"),
   ("functionality_access", "Доступ к функционалу"),
   ("blind_timing", "Слепая детекция по времени отклика"),
   ("blind_error", "Слепая детекция по паттернам ошибок"),
   ("blind_response_variance", "Слепая детекция по вариативности ответов"),
   ("blind_behavioral", "Слепая детекция по поведению"),
   ("blind_sequential", "Слепая детекция по последовательным запросам"),
   ("blind_side_channel", "Слепая детекция по побочным каналам"),
   ("timing_based", "Слепая детекция по времени"),
   ("error_pattern", "Слепая детекция по паттернам ошибок"),
   ("response_variance", "Слепая детекция по вариативности ответов"),
   ("unique_pattern", "Уникальный паттерн"),
   ("excessive_pattern", "Частый паттерн"),
   ("unique_response", "Уникальный ответ"),
   ("high_uniqueness", "Высокая уникальность"),
   ("blind_response_analysis", "Анализ ответов слепой детекции")]

/-- `_translate_vulnerability_type`: table lookup, identity fallback. -/
def translateVulnerabilityType (t : String) : String :=
  (assocLookup vulnerabilityTypesRu t).getD t

/-- The vulnerability dict synthesized for a suspicious heuristic bucket
(advanced_detector.py lines 413-418). -/
def heurVuln (h : HeuristicResult) : Vuln :=
  { vtype := translateVulnerabilityType "heuristic_anomaly",
    confidence := some h.confidence, risk_score := none,
    evidence := VulnEvidence.heuristic h }

/-- The vulnerability dict synthesized for a differential bucket
(advanced_detector.py lines 423-430); the accompanying
`diff.risk_score` is recorded in the risk aggregation, represented here as
the optional risk score the finding carries. -/
def diffVuln (d : DifferentialResult) : Vuln :=
  { vtype := translateVulnerabilityType d.vulnerability_type,
    confidence := some d.confidence, risk_score := some d.risk_score,
    evidence := VulnEvidence.differential d.evidence }

/-- The vulnerability dict synthesized for one blind detection
(advanced_detector.py lines 434-440). -/
def blindVuln (bf : BlindFinding) : Vuln :=
  { vtype := translateVulnerabilityType ("blind_" ++ bf.method.value),
    confidence := some bf.confidence, risk_score := none,
    evidence := VulnEvidence.blind bf.evidence }

/-- One per-object bucket of a strategy result dict: the four keys fusion
reads (`vulnerabilities`, `heuristics`, `differential`,
`blind_detections`), each possibly absent (an error-only bucket has all
four absent). -/
structure ObjData : Type where
  vulnerabilities : Option (List Vuln)
  heuristics : Option HeuristicResult
  differential : Option DifferentialResult
  blind_detections : Option (List BlindFinding)

/-- A settled strategy coroutine's return dict:
`\x7b'strategy': name, 'results': id ↦ bucket\x7d`. -/
structure StrategyRes : Type where
  strategy : String
  results : List (Int × ObjData)

/-- One element of the `asyncio.gather(..., return_exceptions=True)` list:
either an exception object (the raising strategy, caught by the gather) or
a settled strategy result. -/
inductive StrategyOutcome : Type where
  | exc (msg : String)
  | ok (sr : StrategyRes)

def lookupIntAssoc {α : Type} (d : List (Int × α)) (k : Int) : Option α :=
  (d.find? (fun p => p.1 == k)).map (·.2)

/-- The vulnerabilities gathered from one bucket by the four main branches
of the per-strategy loop (advanced_detector.py lines 401-440), in append
order. -/
def vulnsOfObjData (od : ObjData) : List Vuln :=
  od.vulnerabilities.getD [] ++
  (match od.heuristics with
   | some h => if h.is_suspicious then [heurVuln h] else []
   | none => []) ++
  (match od.differential with
   | some d => [diffVuln d]
   | none => []) ++
  (match od.blind_detections with
   | some l => l.map blindVuln
   | none => [])

/-- The confidence scores gathered from one bucket, in append order: every
`confidence` key of a supplied vulnerability dict, the heuristic confidence
(appended whether or not the bucket was suspicious), the differential
confidence, and each blind confidence. -/
def confsOfObjData (od : ObjData) : List ℚ :=
  (od.vulnerabilities.getD []).filterMap (·.confidence) ++
  (match od.heuristics with
   | some h => [h.confidence]
   | none => []) ++
  (match od.differential with
   | some d => [d.confidence]
   | none => []) ++
  (match od.blind_detections with
   | some l => l.map (·.confidence)
   | none => [])

/-- The risk scores gathered from one bucket: every `risk_score` key of a
supplied vulnerability dict, then the differential risk score. -/
def risksOfObjData (od : ObjData) : List ℚ :=
  (od.vulnerabilities.getD []).filterMap (·.risk_score) ++
  (match od.differential with
   | some d => [d.risk_score]
   | none => [])

/-- The extra blind-redistribution branch (advanced_detector.py lines
443-459): when the strategy is named `blind` and its results hold a bucket
under key 0, every detection of that bucket whose evidence has a key named
`evidence` and an `anomalies` list containing an entry with
`object_id == obj_id` is appended once more (the `break` caps it at one
append per detection). -/
def secondBlindVulns (sr : StrategyRes) (oid : Int) : List Vuln :=
  if sr.strategy == "blind" then
    match lookupIntAssoc sr.results 0 with
    | some bd =>
        match bd.blind_detections with
        | some l =>
            l.filterMap (fun bf =>
              if bf.evidence.has_evidence_key &&
                 (match bf.evidence.anomalies with
                  | some l2 => l2.any (fun a => a.object_id == some oid)
                  | none => false) then
                some (blindVuln bf)
              else none)
        | none => []
    | none => []
  else []

/-- Accumulated per-object fusion data: strategy names, vulnerability
dicts, confidence scores, risk scores, and the per-strategy evidence map. -/
structure Collect : Type where
  strategies : List String
  vulns : List Vuln
  confs : List ℚ
  risks : List ℚ
  evidence : List (String × ObjData)

/-- Python dict assignment `evidence[k] = od` (overwrite in place, append
if new). -/
def evidenceUpdate (e : List (String × ObjData)) (k : String) (od : ObjData) :
    List (String × ObjData) :=
  if e.any (fun p => p.1 == k) then
    e.map (fun p => if p.1 == k then (k, od) else p)
  else e ++ [(k, od)]

def Collect.merge (a b : Collect) : Collect :=
  { strategies := a.strategies ++ b.strategies,
    vulns := a.vulns ++ b.vulns,
    confs := a.confs ++ b.confs,
    risks := a.risks ++ b.risks,
    evidence := b.evidence.foldl (fun acc p => evidenceUpdate acc p.1 p.2)
      a.evidence }

/-- What one settled strategy contributes for one object: nothing if the
object has no bucket, otherwise the bucket's findings and scores plus the
blind-redistribution appends. -/
def contribOf (sr : StrategyRes) (oid : Int) : Collect :=
  match lookupIntAssoc sr.results oid with
  | none => { strategies := [], vulns := [], confs := [], risks := [],
              evidence := [] }
  | some od =>
      let sb := secondBlindVulns sr oid
      { strategies := [sr.strategy],
        vulns := vulnsOfObjData od ++ sb,
        confs := confsOfObjData od ++ sb.filterMap (·.confidence),
        risks := risksOfObjData od,
        evidence := [(sr.strategy, od)] }

/-- The inner strategy loop of `_combine_detection_results`
(advanced_detector.py lines 390-462): exceptions returned by the gather
are skipped, settled strategies contribute in order. -/
def collectObj : List StrategyOutcome → Int → Collect
  | [], _ => { strategies := [], vulns := [], confs := [], risks := [],
               evidence := [] }
  | StrategyOutcome.exc _ :: rest, oid => collectObj rest oid
  | StrategyOutcome.ok sr :: rest, oid =>
      (contribOf sr oid).merge (collectObj rest oid)

/-- `_generate_recommendations` (advanced_detector.py lines 494-534).
Python's `set` has no ordering guarantee; de-duplication here keeps first
occurrences.  `pyLower` lowercases only ASCII, which agrees with Python on
every string of the fixed type table that can reach the substring tests
below. -/
def generateRecommendations (vulns : List Vuln) : List String :=
  let vuln_types := dedupFirst (vulns.map (·.vtype))
  dedupFirst (
    (if vuln_types.contains "Горизонтальный IDOR" then
       ["Реализуйте валидацию прав владения для всех ресурсов",
        "Добавьте проверки user_id в API эндпоинтах"] else []) ++
    (if vuln_types.contains "Вертикальный IDOR" then
       ["Реализуйте proper role-based access control",
        "Удалите административные данные из пользовательских эндпоинтов"]
     else []) ++
    (if vuln_types.contains "heuristic_anomaly" then
       ["Исследуйте подозрительные паттерны ответов",
        "Стандартизируйте сообщения об ошибках и форматы ответов"] else []) ++
    (if vuln_types.contains "privilege_escalation" then
       ["Исправьте уязвимости повышения привилегий",
        "Реализуйте строгие проверки авторизации"] else []) ++
    (if vuln_types.contains "data_exposure" then
       ["Удалите чувствительные данные из API ответов",
        "Реализуйте фильтрацию данных на основе ролей пользователей"]
     else []) ++
    (if vuln_types.any (fun t =>
        pySubstr "слепой" (pyLower t) || pySubstr "blind" (pyLower t)) then
       ["Исследуйте потенциальные слепые IDOR уязвимости",
        "Реализуйте консистентную обработку ответов"] else []) ++
    ["Реализуйте комплексное логирование попыток доступа",
     "Добавьте автоматизированное тестирование безопасности в CI/CD pipeline",
     "Регулярные аудиты безопасности и пентесты"])

/-- The recognized configuration options (`AdvancedIDORDetector.__init__`,
advanced_detector.py lines 88-95). -/
structure DetectorConfig : Type where
  enable_pattern_matching : Bool
  enable_heuristic_analysis : Bool
  enable_differential_analysis : Bool
  enable_blind_detection : Bool
  confidence_threshold : ℚ
  risk_threshold : ℚ

/-- The defaults set by `__init__`. -/
def defaultDetectorConfig : DetectorConfig :=
  { enable_pattern_matching := true, enable_heuristic_analysis := true,
    enable_differential_analysis := true, enable_blind_detection := true,
    confidence_threshold := 1/2, risk_threshold := 3/5 }

/-- `AdvancedDetectionResult` dataclass (advanced_detector.py lines
25-34). -/
structure AdvancedDetectionResult : Type where
  object_id : Int
  strategies_used : List String
  vulnerabilities : List Vuln
  overall_confidence : ℚ
  risk_score : ℚ
  evidence : List (String × ObjData)
  recommendations : List String

/-- `_combine_detection_results` (advanced_detector.py lines 375-488):
iterate the requested ids in order; for each, gather all strategies'
findings and scores, set `overall_confidence = max(confidences) or 0.0`
and `risk_score = max(risk_scores) or overall_confidence`, and emit a
result exactly when at least one vulnerability was gathered and the
confidence meets the configured threshold. -/
def combineDetectionResults (strategy_results : List StrategyOutcome)
    (object_ids : List Int) (cfg : DetectorConfig) :
    List AdvancedDetectionResult :=
  object_ids.filterMap (fun oid =>
    let c := collectObj strategy_results oid
    let overall_confidence := qMax0 c.confs
    let risk_score := match c.risks with
      | [] => overall_confidence
      | x :: xs => qMaxNe x xs
    if !c.vulns.isEmpty &&
       decide (cfg.confidence_threshold ≤ overall_confidence) then
      some { object_id := oid, strategies_used := c.strategies,
             vulnerabilities := c.vulns,
             overall_confidence := overall_confidence,
             risk_score := risk_score, evidence := c.evidence,
             recommendations := generateRecommendations c.vulns }
    else none)

/-! ## Concrete instances used by the claims -/

/-- `current = \x7b"owner_id": 101\x7d` of the horizontal-rule test
vector. -/
def c5current : PyDict := [("owner_id", Value.vInt 101)]

/-- `context = \x7b"ownership_field": "owner_id", "current_user_id": 1\x7d`. -/
def c5ctx : PatternContext :=
  { ownership_field := some "owner_id",
    current_user_id := some (Value.vInt 1), user_role := none }

/-- Per-id averaged timing samples `[0.1, 0.1, 0.1, 0.1, 5.0]` over the
object ids 1..5. -/
def c4data : TimingData :=
  [(1, some (1/10)), (2, some (1/10)), (3, some (1/10)), (4, some (1/10)),
   (5, some 5)]

def c6guest : AccessResult :=
  AccessResult.success 200 (1/10) 50 (some [("x", Value.vInt 1)]) true

def c6user : AccessResult :=
  AccessResult.success 200 (1/10) 50 (some [("x", Value.vInt 1)]) true

def c6admin : AccessResult :=
  AccessResult.success 200 (1/10) 50 (some [("x", Value.vInt 1)]) true

/-- `\x7bguest: 200, user: 200, admin: 200\x7d` access map with identical
payloads (no other signal). -/
def c6ar : AccessResults :=
  [("guest", c6guest), ("user", c6user), ("admin", c6admin)]

/-- A plain 200 response used as a baseline. -/
def mBase : ResponseMetrics :=
  { status_code := 200, response_time := 0, content_length := 100,
    content_type := "", headers := [], body := "x",
    json_data := none }

/-- The same response, 10 seconds slower (trips only the timing
dimension). -/
def mSlow : ResponseMetrics := { mBase with response_time := 10 }

/-- Prior-scan responses with differing status codes. -/
def mOld1 : ResponseMetrics := { mBase with status_code := 404 }

def mOld2 : ResponseMetrics := { mBase with status_code := 500 }

/-- The heuristic analyzer state left behind by a previous scan that set a
baseline and analyzed two responses (history of 3 entries with 3 distinct
status codes). -/
def staleState : HeuristicState :=
  (analyzeResponse
    ((analyzeResponse (setBaseline heuristicInit mBase) mOld1).1) mOld2).1

/-- `is_suspicious` of an `analyze_response` outcome (`False` for the
baseline-missing error dict). -/
def analyzeIsSuspicious (o : AnalyzeOutput) : Bool :=
  match o with
  | AnalyzeOutput.errorDict _ => false
  | AnalyzeOutput.ok r => r.is_suspicious

/-- Decidable form of the pipeline guarantee that `_heuristic_detection`
only stores buckets whose heuristic result was suspicious
(advanced_detector.py lines 305-311). -/
def suspOkB (so : StrategyOutcome) : Bool :=
  match so with
  | StrategyOutcome.exc _ => true
  | StrategyOutcome.ok sr => sr.results.all (fun p =>
      match p.2.heuristics with
      | some h => h.is_suspicious
      | none => true)

/-- Decidable form of the strategy guarantee that every confidence a bucket
carries lies in `[0, 1]`-bounded form (`≤ 1`). -/
def confBoundB (so : StrategyOutcome) : Bool :=
  match so with
  | StrategyOutcome.exc _ => true
  | StrategyOutcome.ok sr => sr.results.all (fun p =>
      (p.2.vulnerabilities.getD []).all (fun v =>
        match v.confidence with
        | some c => decide (c ≤ 1)
        | none => true) &&
      (match p.2.heuristics with
       | some h => decide (h.confidence ≤ 1)
       | none => true) &&
      (match p.2.differential with
       | some d => decide (d.confidence ≤ 1)
       | none => true) &&
      (match p.2.blind_detections with
       | some l => l.all (fun bf => decide (bf.confidence ≤ 1))
       | none => true))

/-- A minimal strategy-supplied vulnerability dict used as witness input. -/
def w1vuln : Vuln :=
  { vtype := "test", confidence := some 1, risk_score := none,
    evidence := VulnEvidence.payload Value.vNull }

/-- A one-vulnerability bucket used as witness input. -/
def w1od : ObjData :=
  { vulnerabilities := some [w1vuln], heuristics := none,
    differential := none, blind_detections := none }

/-- A one-strategy, one-bucket gather outcome used as witness input. -/
def w1srs : List StrategyOutcome :=
  [StrategyOutcome.ok { strategy := "pattern_based", results := [(1, w1od)] }]

/-- The fused result the witness input produces. -/
def w1result : AdvancedDetectionResult :=
  { object_id := 1, strategies_used := ["pattern_based"],
    vulnerabilities := [w1vuln], overall_confidence := 1, risk_score := 1,
    evidence := [("pattern_based", w1od)],
    recommendations := generateRecommendations [w1vuln] }

/-! ## Helper lemmas (concrete evaluations shared by the claim theorems) -/

set_option maxHeartbeats 1000000

/-- With a baseline present, `analyze_response` leaves the baseline alone
and appends the analyzed response to the history. -/
theorem analyzeResponseStateEq (s : HeuristicState) (m b : ResponseMetrics)
    (h : s.baseline_metrics = some b) :
    (analyzeResponse s m).1 =
      { baseline_metrics := some b,
        response_history := s.response_history ++ [m] } := by
  unfold analyzeResponse
  rw [h]

/-- The state left by the previous scan: baseline `mBase`, history of the
three analyzed responses. -/
theorem staleStateEq : staleState =
    { baseline_metrics := some mBase,
      response_history := [mBase, mOld1, mOld2] } := by
  have h1 : setBaseline heuristicInit mBase =
      { baseline_metrics := some mBase, response_history := [mBase] } := by
    simp [setBaseline, heuristicInit]
  have h2 : (analyzeResponse
      ({ baseline_metrics := some mBase, response_history := [mBase] } :
        HeuristicState) mOld1).1 =
      { baseline_metrics := some mBase,
        response_history := [mBase, mOld1] } := by
    rw [analyzeResponseStateEq _ _ mBase rfl]
    rfl
  have h3 : (analyzeResponse
      ({ baseline_metrics := some mBase,
         response_history := [mBase, mOld1] } : HeuristicState) mOld2).1 =
      { baseline_metrics := some mBase,
        response_history := [mBase, mOld1, mOld2] } := by
    rw [analyzeResponseStateEq _ _ mBase rfl]
    rfl
  unfold staleState
  rw [h1, h2, h3]

/-- The 10-second delta of `mSlow` against `mBase` trips the timing
dimension. -/
theorem timeAnomTrue : (analyzeResponseTime mBase mSlow).is_anomaly = true := by
  norm_num [analyzeResponseTime, mBase, mSlow]

/-- Equal content lengths: no size anomaly. -/
theorem sizeAnomFalse : (analyzeContentSize mBase mSlow).isAnomaly = false := by
  norm_num [analyzeContentSize, SizeAnalysis.isAnomaly, mBase, mSlow]

/-- Equal (empty) header maps: no header anomaly. -/
theorem headerAnomFalse : (analyzeHeaders mBase mSlow).is_anomaly = false := by
  simp [analyzeHeaders, mBase, mSlow, dedupFirst, dedupSeen, assocLookup]

/-- Identical bodies with no error keywords: no content anomaly. -/
theorem contentAnomFalse : (analyzeContent mBase mSlow).is_anomaly = false := by
  have e1 : heuristicErrorPatterns.filter
      (fun p => pySubstr (pyLower p) (pyLower "x")) = [] := by decide
  have e2 : (["redirect", "location", "moved"].any
      (fun w => pySubstr w (pyLower "x"))) = false := by decide
  have e4 : calculateSimilarity "x" "x" = 1 := by
    have hw : dedupFirst (pySplitWs (pyLower "x")) = ["x"] := by decide
    simp [calculateSimilarity, hw]
  simp [analyzeContent, mBase, mSlow, e1, e2, e4]
  norm_num

/-- The stale four-entry history has three distinct status codes, so the
combined analysis fires. -/
theorem combinedStaleTrue :
    (combinedAnalysis [mBase, mOld1, mOld2, mBase]).isAnomaly = true := by
  have hd : dedupFirst [(200:Int), 404, 500, 200] = [200, 404, 500] := by decide
  simp [combinedAnalysis, CombinedAnalysis.isAnomaly, lastN, mBase, mOld1,
    mOld2, hd]

/-- A fresh single-entry history is below the 3-entry requirement. -/
theorem combinedFreshFalse : (combinedAnalysis [mBase]).isAnomaly = false := by
  simp [combinedAnalysis, CombinedAnalysis.isAnomaly]

/-- Analyzing `mSlow` on the analyzer carrying the previous scan's history
is suspicious (timing + combined = 2 indicators). -/
theorem staleSuspTrue :
    analyzeIsSuspicious
      (analyzeResponse (setBaseline staleState mBase) mSlow).2 = true := by
  have hset : setBaseline staleState mBase =
      { baseline_metrics := some mBase,
        response_history := [mBase, mOld1, mOld2, mBase] } := by
    rw [staleStateEq]
    rfl
  rw [hset]
  unfold analyzeResponse
  simp [analyzeIsSuspicious, timeAnomTrue, sizeAnomFalse, headerAnomFalse,
    contentAnomFalse, combinedStaleTrue, show mSlow.json_data = none from rfl]

/-- Analyzing `mSlow` on a fresh analyzer is not suspicious (one indicator,
confidence 0.2). -/
theorem freshSuspFalse :
    analyzeIsSuspicious
      (analyzeResponse (setBaseline heuristicInit mBase) mSlow).2 = false := by
  have hset : setBaseline heuristicInit mBase =
      { baseline_metrics := some mBase, response_history := [mBase] } := by
    simp [setBaseline, heuristicInit]
  rw [hset]
  unfold analyzeResponse
  simp [analyzeIsSuspicious, timeAnomTrue, sizeAnomFalse, headerAnomFalse,
    contentAnomFalse, combinedFreshFalse, show mSlow.json_data = none from rfl]
  norm_num

/-! ## Claim theorems -/

/-- C5: on current data with `owner_id = 101`, ownership field `owner_id`,
current user 1 and a baseline equal to the current data, the pattern
matcher returns exactly one finding: the horizontal IDOR pattern
(`idor_type = IDORType.horizontal`, the type whose stored enum value
string is the Russian display name of "Horizontal IDOR") with
confidence 0.8. -/
theorem c5_horizontal_rule :
    (patternMatcherAnalyze patternMatcherInitState c5current c5current
        c5ctx).2 =
      [{ pattern := "Горизонтальный IDOR", idor_type := IDORType.horizontal,
         confidence := 4/5,
         details := some (PatternDetails.horizontal
           { owner_field := "owner_id", current_user_id := Value.vInt 1,
             accessed_owner_id := Value.vInt 101,
             evidence := "Accessed data owned by user 101 as user 1" }),
         description :=
           "Доступ к данным других пользователей на том же уровне привилегий" }] := by
  have hh : horizontalAnalyze c5current c5ctx =
      (true, 4/5, some (PatternDetails.horizontal
        { owner_field := "owner_id", current_user_id := Value.vInt 1,
          accessed_owner_id := Value.vInt 101,
          evidence := "Accessed data owned by user 101 as user 1" })) := by
    have h3 : pyEq (Value.vInt 101) (Value.vInt 1) = false := by norm_num [pyEq]
    have h1 : pyStr (Value.vInt 101) = "101" := by decide
    have h2 : pyStr (Value.vInt 1) = "1" := by decide
    have h4 : "Accessed data owned by user " ++ "101" ++ " as user " ++ "1" =
        "Accessed data owned by user 101 as user 1" := by decide
    simp [horizontalAnalyze, c5current, c5ctx, dictLookup, h1, h2, h3, h4]
  have hv : verticalAnalyze c5current = (false, 0, none) := by
    simp [verticalAnalyze, c5current, dictLookup, dictContains]
  have hc : contextDependentAnalyze c5current c5current c5ctx =
      (false, 0, none) := by
    simp [contextDependentAnalyze, c5current, c5ctx, dictLookup]
  have hb : blindStructuralAnalyze c5current c5current = (false, 0, none) := by
    have hid : looksLikeIdField "owner_id" = true := by decide
    have heq : pyEq (Value.vInt 101) (Value.vInt 101) = true := by
      norm_num [pyEq]
    simp [blindStructuralAnalyze, c5current, dictKeys, dictLookup,
      dedupFirst, dedupSeen, hid, heq]
    norm_num
  simp [patternMatcherAnalyze, mkPatternFinding, hh, hv, hc, hb]

/-- C4 counterexample: on the per-id averaged timing samples
`[0.1, 0.1, 0.1, 0.1, 5.0]` over ids 1..5, the id with average 5.0 is NOT
flagged as a timing outlier — dividing by the sample standard deviation
`statistics.stdev` (√4.802) puts its z-score at √3.2 ≈ 1.79, not above
2.0. -/
theorem c4_counterexample : (5 : Int) ∉ timingFlaggedObjectIds c4data := by
  simp only [timingFlaggedObjectIds, timingAnomalies, c4data]
  norm_num [List.filterMap_cons, List.sum_cons]

/-- C4 amended: on those samples no id at all is flagged and the timing
technique emits no result (even the population standard deviation 1.96
would give the 5.0 id a z-score of exactly 2.0, still not above the
strict 2.0 threshold). -/
theorem c4_no_outlier_flagged :
    timingFlaggedObjectIds c4data = [] ∧ timingBasedDetection c4data = [] := by
  constructor
  · simp only [timingFlaggedObjectIds, timingAnomalies, c4data]
    norm_num [List.filterMap_cons, List.sum_cons]
  · simp only [timingBasedDetection, timingAnomalies, c4data]
    norm_num [List.filterMap_cons, List.sum_cons]

/-- C9: running the pattern matcher twice on the same
`(current, baseline, context)` triple, threading the matcher state the
first run returned, yields the identical finding list and the identical
state — no analyze method mutates the per-pattern state. -/
theorem c9_matcher_idempotent (st : PatternMatcherState)
    (rd bd : PyDict) (ctx : PatternContext) :
    (patternMatcherAnalyze (patternMatcherAnalyze st rd bd ctx).1
        rd bd ctx).2 = (patternMatcherAnalyze st rd bd ctx).2 ∧
    (patternMatcherAnalyze (patternMatcherAnalyze st rd bd ctx).1
        rd bd ctx).1 = (patternMatcherAnalyze st rd bd ctx).1 :=
  ⟨rfl, rfl⟩

/-- C7 counterexample: with no baseline set, `analyze_response` RETURNS the
error dict value `\x7b'error': 'No baseline established'\x7d` and leaves
the state untouched — it does not raise; no `NoBaselineError` exists
anywhere in the code. -/
theorem c7_counterexample :
    analyzeResponse heuristicInit mBase =
      (heuristicInit, AnalyzeOutput.errorDict "No baseline established") :=
  rfl

/-- C7 amended: before a baseline is set, `analyze_response` returns the
error mapping and changes nothing; once `set_baseline` has run, it
returns a normal analysis result. -/
theorem c7_baseline_gate (s : HeuristicState) (m : ResponseMetrics) :
    (s.baseline_metrics = none →
      analyzeResponse s m =
        (s, AnalyzeOutput.errorDict "No baseline established"))
    ∧ (∀ b, s.baseline_metrics = some b →
        (analyzeResponse s m).2.isOk = true) := by
  constructor
  · intro h
    unfold analyzeResponse
    rw [h]
  · intro b h
    unfold analyzeResponse
    rw [h]
    rfl

/-- C7 witness: the gate evaluated at a fresh analyzer and at one with the
baseline `mBase` set. -/
theorem c7_baseline_gate_witness :
    analyzeResponse heuristicInit mBase =
      (heuristicInit, AnalyzeOutput.errorDict "No baseline established") ∧
    (analyzeResponse (setBaseline heuristicInit mBase) mSlow).2.isOk = true :=
  ⟨(c7_baseline_gate heuristicInit mBase).1 rfl,
   (c7_baseline_gate (setBaseline heuristicInit mBase) mSlow).2 mBase rfl⟩

/-- C10 counterexample: the same response analyzed against the same
baseline gives different results on a fresh analyzer and on one still
carrying a previous scan's response history — the later scan's
`set_baseline` does not clear the history, which feeds the combined
analysis. -/
theorem c10_counterexample :
    (analyzeResponse (setBaseline staleState mBase) mSlow).2 ≠
      (analyzeResponse (setBaseline heuristicInit mBase) mSlow).2 := by
  intro h
  have h1 := staleSuspTrue
  rw [h, freshSuspFalse] at h1
  simp at h1

/-- C10 amended: `set_baseline` overwrites the baseline but only appends to
the response history, and a previous scan's history flips `is_suspicious`
of a later scan's `analyze_response` from false to true on a concrete
response. -/
theorem c10_history_leaks :
    (∀ (s : HeuristicState) (m : ResponseMetrics),
      (setBaseline s m).response_history = s.response_history ++ [m]) ∧
    analyzeIsSuspicious
      (analyzeResponse (setBaseline staleState mBase) mSlow).2 = true ∧
    analyzeIsSuspicious
      (analyzeResponse (setBaseline heuristicInit mBase) mSlow).2 = false :=
  ⟨fun _ _ => rfl, staleSuspTrue, freshSuspFalse⟩

/-- C6: whenever the configured access map is exactly guest/user/admin and
all three statuses are 200, the authorization-bypass check detects the
uniform-access anomaly with confidence 0.6, regardless of any other
signal. -/
theorem c6_uniform_access (g u a : AccessResult)
    (hg : g.statusCode = 200) (hu : u.statusCode = 200)
    (ha : a.statusCode = 200) :
    checkAuthorizationBypass [("guest", g), ("user", u), ("admin", a)] =
      { detected := true, confidence := 3/5,
        details := AuthBypassDetails.uniformAccess } := by
  simp [checkAuthorizationBypass, assocLookup, dedupFirst, dedupSeen,
    hg, hu, ha]

/-- C6 witness: the uniform-access rule evaluated on the concrete all-200
guest/user/admin map. -/
theorem c6_uniform_access_witness :
    checkAuthorizationBypass c6ar =
      { detected := true, confidence := 3/5,
        details := AuthBypassDetails.uniformAccess } :=
  c6_uniform_access c6guest c6user c6admin rfl rfl rfl

/-- Confidence of the privilege-escalation check is never negative. -/
theorem peConfNonneg (ar : AccessResults) :
    0 ≤ (checkPrivilegeEscalation ar).confidence := by
  unfold checkPrivilegeEscalation
  dsimp only
  repeat' split
  all_goals first
    | norm_num
    | exact le_trans (by norm_num) (le_max_right _ _)

/-- Confidence of the data-exposure check is never negative. -/
theorem deConfNonneg (ar : AccessResults) :
    0 ≤ (checkDataExposure ar).confidence := by
  unfold checkDataExposure
  dsimp only
  split <;> norm_num

/-- Confidence of the authorization-bypass check is never negative. -/
theorem abConfNonneg (ar : AccessResults) :
    0 ≤ (checkAuthorizationBypass ar).confidence := by
  unfold checkAuthorizationBypass
  dsimp only
  split
  · norm_num
  · split <;> norm_num

/-- Confidence of the functionality-access check is never negative. -/
theorem faConfNonneg (ar : AccessResults) :
    0 ≤ (checkFunctionalityAccess ar).confidence := by
  unfold checkFunctionalityAccess
  dsimp only
  repeat' split
  all_goals first
    | norm_num
    | exact le_trans (by norm_num) (le_max_right _ _)

/-- `isSome` of a guarded `some`. -/
theorem isSomeIteDiff {c : Prop} [Decidable c] {x : DifferentialResult} :
    ((if c then some x else none).isSome = true) ↔ c := by
  split <;> simp [*]

/-- C8: whenever `_analyze_differential_patterns` emits a result, its risk
score is the weight-times-confidence sum over the detected checks
(privilege escalation 0.4, data exposure 0.3, functionality access 0.2,
authorization bypass 0.1) capped at 1.0; and a result is emitted exactly
when some check detected and the combined confidence (the maximum over
detected checks) strictly exceeds 0.3.  The hypothesis restricts to access
maps whose accessible entries carry a JSON dict, the only inputs on which
the Python code reaches this computation instead of raising. -/
theorem c8_risk_and_emission (object_id : Int) (ar : AccessResults)
    (hdata : ∀ p ∈ ar, p.2.accessible = true → p.2.dataGet.isSome = true) :
    (∀ r, analyzeDifferentialPatterns object_id ar = some r →
       r.risk_score =
         min ((if (checkPrivilegeEscalation ar).detected then
                  (2/5 : ℚ) * (checkPrivilegeEscalation ar).confidence else 0) +
              (if (checkDataExposure ar).detected then
                  (3/10 : ℚ) * (checkDataExposure ar).confidence else 0) +
              (if (checkFunctionalityAccess ar).detected then
                  (1/5 : ℚ) * (checkFunctionalityAccess ar).confidence else 0) +
              (if (checkAuthorizationBypass ar).detected then
                  (1/10 : ℚ) * (checkAuthorizationBypass ar).confidence else 0))
           1)
    ∧ ((analyzeDifferentialPatterns object_id ar).isSome = true ↔
        (((checkPrivilegeEscalation ar).detected = true ∨
          (checkDataExposure ar).detected = true ∨
          (checkAuthorizationBypass ar).detected = true ∨
          (checkFunctionalityAccess ar).detected = true) ∧
         3/10 < diffCombinedConfidence ar)) := by
  have hp := peConfNonneg ar
  have hd := deConfNonneg ar
  have ha := abConfNonneg ar
  have hf := faConfNonneg ar
  constructor
  · intro r hr
    unfold analyzeDifferentialPatterns at hr
    cases hpe : (checkPrivilegeEscalation ar).detected <;>
      cases hde : (checkDataExposure ar).detected <;>
        cases hab : (checkAuthorizationBypass ar).detected <;>
          cases hfa : (checkFunctionalityAccess ar).detected <;>
            simp only [hpe, hde, hab, hfa, Bool.false_eq_true, if_true,
              if_false, ite_true, ite_false] at hr ⊢ <;>
            first
              | exact Option.noConfusion hr
              | (split at hr
                 · injection hr with hr
                   subst hr
                   dsimp only
                   congr 1
                   ring
                 · exact Option.noConfusion hr)
  · unfold analyzeDifferentialPatterns diffCombinedConfidence
    cases hpe : (checkPrivilegeEscalation ar).detected <;>
      cases hde : (checkDataExposure ar).detected <;>
        cases hab : (checkAuthorizationBypass ar).detected <;>
          cases hfa : (checkFunctionalityAccess ar).detected <;>
            simp only [hpe, hde, hab, hfa, Bool.false_eq_true, if_true,
              if_false, ite_true, ite_false, List.append_nil, List.nil_append,
              List.cons_append, qMax0, List.foldl_cons, List.foldl_nil,
              Option.isSome_none, false_iff, true_or, or_true, or_false,
              false_or, true_and, false_and, isSomeIteDiff] <;>
            first
              | simp [show ¬((3:ℚ)/10 < 0) from by norm_num]
              | (simp only [max_def]
                 split_ifs <;> constructor <;> intro h2 <;> linarith)

/-- C8 witness: the theorem applied to the all-200 guest/user/admin map. -/
theorem c8_risk_and_emission_witness :
    (∀ r, analyzeDifferentialPatterns 7 c6ar = some r →
       r.risk_score =
         min ((if (checkPrivilegeEscalation c6ar).detected then
                  (2/5 : ℚ) * (checkPrivilegeEscalation c6ar).confidence else 0) +
              (if (checkDataExposure c6ar).detected then
                  (3/10 : ℚ) * (checkDataExposure c6ar).confidence else 0) +
              (if (checkFunctionalityAccess c6ar).detected then
                  (1/5 : ℚ) * (checkFunctionalityAccess c6ar).confidence else 0) +
              (if (checkAuthorizationBypass c6ar).detected then
                  (1/10 : ℚ) * (checkAuthorizationBypass c6ar).confidence
               else 0))
           1)
    ∧ ((analyzeDifferentialPatterns 7 c6ar).isSome = true ↔
        (((checkPrivilegeEscalation c6ar).detected = true ∨
          (checkDataExposure c6ar).detected = true ∨
          (checkAuthorizationBypass c6ar).detected = true ∨
          (checkFunctionalityAccess c6ar).detected = true) ∧
         3/10 < diffCombinedConfidence c6ar)) :=
  c8_risk_and_emission 7 c6ar (by decide)

/-- Fused blind findings always carry their confidence. -/
theorem blindConfsMap (l : List BlindFinding) :
    l.filterMap ((fun v => v.confidence) ∘ blindVuln) =
      l.map (fun bf => bf.confidence) := by
  induction l with
  | nil => rfl
  | cons bf rest ih => simp [blindVuln, Function.comp, ih]

/-- On a bucket whose heuristic entry (if any) is suspicious, the gathered
confidence scores are exactly the confidences carried by the gathered
vulnerability dicts. -/
theorem confsOfObjDataEq (od : ObjData)
    (h : ∀ hh, od.heuristics = some hh → hh.is_suspicious = true) :
    confsOfObjData od = (vulnsOfObjData od).filterMap (fun v => v.confidence) := by
  unfold confsOfObjData vulnsOfObjData
  cases hod : od.heuristics with
  | none =>
      cases od.differential <;> cases od.blind_detections <;>
        simp [heurVuln, diffVuln, blindVuln, List.filterMap_map, blindConfsMap]
  | some hh =>
      have hs := h hh hod
      cases od.differential <;> cases od.blind_detections <;>
        simp [heurVuln, diffVuln, blindVuln, List.filterMap_map, blindConfsMap,
          hs]

/-- The gathered risk scores are exactly the risk scores carried by the
gathered vulnerability dicts. -/
theorem risksOfObjDataEq (od : ObjData) :
    risksOfObjData od = (vulnsOfObjData od).filterMap (fun v => v.risk_score) := by
  unfold risksOfObjData vulnsOfObjData
  cases od.heuristics with
  | none =>
      cases od.differential <;> cases od.blind_detections <;>
        simp [heurVuln, diffVuln, blindVuln, List.filterMap_map, Function.comp]
  | some hh =>
      cases hs : hh.is_suspicious <;>
        cases od.differential <;> cases od.blind_detections <;>
          simp [heurVuln, diffVuln, blindVuln, List.filterMap_map,
            Function.comp, hs]

/-- The blind-redistribution appends never carry a risk score. -/
theorem sbRisksNil (sr : StrategyRes) (oid : Int) :
    (secondBlindVulns sr oid).filterMap (fun v => v.risk_score) = [] := by
  unfold secondBlindVulns
  split
  · split
    · split
      · rw [List.filterMap_filterMap]
        apply List.filterMap_eq_nil.mpr
        intro bf _
        split <;> simp [blindVuln]
      · rfl
    · rfl
  · rfl

/-- Under the suspicious-bucket guarantee, the per-object confidence list
of the strategy loop equals the confidences of the gathered findings. -/
theorem collectConfsEq (srs : List StrategyOutcome) (oid : Int)
    (h : ∀ so ∈ srs, suspOkB so = true) :
    (collectObj srs oid).confs =
      (collectObj srs oid).vulns.filterMap (fun v => v.confidence) := by
  induction srs with
  | nil => rfl
  | cons so rest ih =>
      have hrest : ∀ x ∈ rest, suspOkB x = true := fun x hx =>
        h x (List.mem_cons_of_mem _ hx)
      cases so with
      | exc msg => exact ih hrest
      | ok sr =>
          have hsr := h (StrategyOutcome.ok sr) (List.mem_cons_self _ _)
          simp only [collectObj]
          unfold Collect.merge
          dsimp only
          rw [List.filterMap_append, ← ih hrest]
          congr 1
          unfold contribOf
          cases hlk : lookupIntAssoc sr.results oid with
          | none => rfl
          | some od =>
              dsimp only
              rw [List.filterMap_append]
              congr 1
              apply confsOfObjDataEq
              intro hh hhh
              obtain ⟨p, hf, hp2⟩ :
                  ∃ p, sr.results.find? (fun q => q.1 == oid) = some p ∧
                    p.2 = od := by
                unfold lookupIntAssoc at hlk
                cases hfind : sr.results.find? (fun q => q.1 == oid) with
                | none => rw [hfind] at hlk; simp at hlk
                | some p =>
                    rw [hfind] at hlk
                    simp at hlk
                    exact ⟨p, rfl, hlk⟩
              have hmem : p ∈ sr.results := List.mem_of_find?_eq_some hf
              obtain ⟨pk, pv⟩ := p
              simp only [suspOkB] at hsr
              have hall := (List.all_eq_true.mp hsr) (pk, pv) hmem
              dsimp only at hall hp2
              rw [hp2, hhh] at hall
              exact hall

/-- The per-object risk list of the strategy loop equals the risk scores of
the gathered findings. -/
theorem collectRisksEq (srs : List StrategyOutcome) (oid : Int) :
    (collectObj srs oid).risks =
      (collectObj srs oid).vulns.filterMap (fun v => v.risk_score) := by
  induction srs with
  | nil => rfl
  | cons so rest ih =>
      cases so with
      | exc msg => exact ih
      | ok sr =>
          simp only [collectObj]
          unfold Collect.merge
          dsimp only
          rw [List.filterMap_append, ← ih]
          congr 1
          unfold contribOf
          cases hlk : lookupIntAssoc sr.results oid with
          | none => rfl
          | some od =>
              dsimp only
              rw [List.filterMap_append, risksOfObjDataEq, sbRisksNil,
                List.append_nil]

/-- Folding `max` keeps a common upper bound. -/
theorem foldlMaxLe (xs : List ℚ) (x : ℚ) (hx : x ≤ 1)
    (h : ∀ q ∈ xs, q ≤ 1) : xs.foldl max x ≤ 1 := by
  induction xs generalizing x with
  | nil => exact hx
  | cons y ys ih =>
      exact ih (max x y)
        (max_le hx (h y (List.mem_cons_self _ _)))
        (fun q hq => h q (List.mem_cons_of_mem _ hq))

/-- `qMax0` of a list bounded by 1 is bounded by 1. -/
theorem qMax0LeOne (l : List ℚ) (h : ∀ q ∈ l, q ≤ 1) : qMax0 l ≤ 1 := by
  cases l with
  | nil => norm_num [qMax0]
  | cons x xs =>
      exact foldlMaxLe xs x (h x (List.mem_cons_self _ _))
        (fun q hq => h q (List.mem_cons_of_mem _ hq))

/-- All confidences gathered from a bound-respecting bucket are at most
1. -/
theorem confsOfObjDataLe (od : ObjData)
    (hb : ((od.vulnerabilities.getD []).all (fun v =>
          match v.confidence with
          | some c => decide (c ≤ 1)
          | none => true) &&
        (match od.heuristics with
         | some h => decide (h.confidence ≤ 1)
         | none => true) &&
        (match od.differential with
         | some d => decide (d.confidence ≤ 1)
         | none => true) &&
        (match od.blind_detections with
         | some l => l.all (fun bf => decide (bf.confidence ≤ 1))
         | none => true)) = true) :
    ∀ q ∈ confsOfObjData od, q ≤ 1 := by
  intro q hq
  simp only [Bool.and_eq_true] at hb
  obtain ⟨⟨⟨hA, hB⟩, hC⟩, hD⟩ := hb
  unfold confsOfObjData at hq
  simp only [List.mem_append] at hq
  rcases hq with ((hq | hq) | hq) | hq
  · obtain ⟨v, hv, hvc⟩ := List.mem_filterMap.mp hq
    have hav := List.all_eq_true.mp hA v hv
    rw [hvc] at hav
    exact of_decide_eq_true hav
  · cases hod : od.heuristics with
    | none => rw [hod] at hq; simp at hq
    | some hh =>
        rw [hod] at hq hB
        simp only [List.mem_singleton] at hq
        subst hq
        exact of_decide_eq_true hB
  · cases hod : od.differential with
    | none => rw [hod] at hq; simp at hq
    | some d =>
        rw [hod] at hq hC
        simp only [List.mem_singleton] at hq
        subst hq
        exact of_decide_eq_true hC
  · cases hod : od.blind_detections with
    | none => rw [hod] at hq; simp at hq
    | some l =>
        rw [hod] at hq hD
        simp only [List.mem_map] at hq
        obtain ⟨bf, hbf, hq⟩ := hq
        subst hq
        exact of_decide_eq_true (List.all_eq_true.mp hD bf hbf)

/-- A successful association lookup yields a member. -/
theorem lookupIntAssocMem {α : Type} {d : List (Int × α)} {k : Int} {v : α}
    (h : lookupIntAssoc d k = some v) : (k, v) ∈ d := by
  unfold lookupIntAssoc at h
  cases hf : d.find? (fun p => p.1 == k) with
  | none =>
      rw [hf] at h
      exact Option.noConfusion h
  | some p =>
      rw [hf] at h
      simp at h
      have hmem := List.mem_of_find?_eq_some hf
      have hkey := List.find?_some hf
      simp only [beq_iff_eq] at hkey
      obtain ⟨pk, pv⟩ := p
      dsimp only at h hkey
      rw [← hkey, ← h]
      exact hmem

/-- Blind-redistributed confidences respect the bound of bucket 0. -/
theorem sbConfsLe (sr : StrategyRes) (oid : Int)
    (hb : confBoundB (StrategyOutcome.ok sr) = true) :
    ∀ q ∈ (secondBlindVulns sr oid).filterMap (fun v => v.confidence),
      q ≤ 1 := by
  intro q hq
  unfold secondBlindVulns at hq
  split at hq
  · cases hlk : lookupIntAssoc sr.results 0 with
    | none =>
        rw [hlk] at hq
        exact absurd hq (by simp)
    | some bd =>
        rw [hlk] at hq
        dsimp only at hq
        cases hbd : bd.blind_detections with
        | none =>
            rw [hbd] at hq
            exact absurd hq (by simp)
        | some l =>
            rw [hbd] at hq
            dsimp only at hq
            obtain ⟨v, hv, hvc⟩ := List.mem_filterMap.mp hq
            obtain ⟨bf, hbf, hbfv⟩ := List.mem_filterMap.mp hv
            have hv2 : v = blindVuln bf := by
              by_cases hc : (bf.evidence.has_evidence_key &&
                  (match bf.evidence.anomalies with
                   | some l2 => l2.any (fun a => a.object_id == some oid)
                   | none => false)) = true
              · rw [if_pos hc] at hbfv
                injection hbfv with hbfv
                exact hbfv.symm
              · rw [if_neg hc] at hbfv
                exact Option.noConfusion hbfv
            subst hv2
            simp only [blindVuln, Option.some_inj] at hvc
            have hmem0 := lookupIntAssocMem hlk
            simp only [confBoundB] at hb
            have hall := List.all_eq_true.mp hb (0, bd) hmem0
            simp only [Bool.and_eq_true] at hall
            rw [hbd] at hall
            have hD := hall.2
            rw [← hvc]
            exact of_decide_eq_true (List.all_eq_true.mp hD bf hbf)
  · simp at hq

/-- Under the per-strategy bound guarantee, every gathered confidence is at
most 1. -/
theorem collectConfsLe (srs : List StrategyOutcome) (oid : Int)
    (h : ∀ so ∈ srs, confBoundB so = true) :
    ∀ q ∈ (collectObj srs oid).confs, q ≤ 1 := by
  induction srs with
  | nil => intro q hq; exact absurd hq (by simp [collectObj])
  | cons so rest ih =>
      have hrest : ∀ x ∈ rest, confBoundB x = true := fun x hx =>
        h x (List.mem_cons_of_mem _ hx)
      cases so with
      | exc msg => exact ih hrest
      | ok sr =>
          intro q hq
          have hsr := h (StrategyOutcome.ok sr) (List.mem_cons_self _ _)
          simp only [collectObj] at hq
          unfold Collect.merge at hq
          dsimp only at hq
          rw [List.mem_append] at hq
          rcases hq with hq | hq
          · unfold contribOf at hq
            cases hlk : lookupIntAssoc sr.results oid with
            | none =>
                rw [hlk] at hq
                exact absurd hq (by simp)
            | some od =>
                rw [hlk] at hq
                dsimp only at hq
                rw [List.mem_append] at hq
                rcases hq with hq | hq
                · have hmem := lookupIntAssocMem hlk
                  simp only [confBoundB] at hsr
                  have hall := List.all_eq_true.mp hsr (oid, od) hmem
                  exact confsOfObjDataLe od hall q hq
                · exact sbConfsLe sr oid (by simpa [confBoundB] using hsr) q hq
          · exact ih hrest q hq

/-- C1: every fused result's overall confidence is the maximum of the
confidence values of its constituent findings — never an average, and
never above 1 when the strategies' confidences are bounded by 1 — and its
risk score is the maximum over the findings that carry a risk score, or
the overall confidence when none does.  The first hypothesis is the
pipeline guarantee that heuristic buckets are stored only when
suspicious; the second bounds every supplied confidence by 1. -/
theorem c1_fusion_confidence (srs : List StrategyOutcome) (ids : List Int)
    (cfg : DetectorConfig)
    (hsusp : ∀ so ∈ srs, suspOkB so = true)
    (hbound : ∀ so ∈ srs, confBoundB so = true) :
    ∀ r ∈ combineDetectionResults srs ids cfg,
      r.overall_confidence =
        qMax0 (r.vulnerabilities.filterMap (fun v => v.confidence)) ∧
      r.overall_confidence ≤ 1 ∧
      r.risk_score =
        (match r.vulnerabilities.filterMap (fun v => v.risk_score) with
         | [] => r.overall_confidence
         | x :: xs => qMaxNe x xs) := by
  intro r hr
  unfold combineDetectionResults at hr
  obtain ⟨oid, hoid, hf⟩ := List.mem_filterMap.mp hr
  dsimp only at hf
  split at hf
  · injection hf with hf
    subst hf
    dsimp only
    refine ⟨?_, ?_, ?_⟩
    · rw [collectConfsEq srs oid hsusp]
    · exact qMax0LeOne _ (collectConfsLe srs oid hbound)
    · rw [collectRisksEq srs oid]
  · exact Option.noConfusion hf

/-- The witness input fuses to exactly one result. -/
theorem w1combineEq :
    combineDetectionResults w1srs [1] defaultDetectorConfig = [w1result] := by
  have hc : collectObj w1srs 1 =
      { strategies := ["pattern_based"], vulns := [w1vuln], confs := [1],
        risks := [], evidence := [("pattern_based", w1od)] } := by
    simp [collectObj, contribOf, Collect.merge, lookupIntAssoc, w1srs, w1od,
      secondBlindVulns, vulnsOfObjData, confsOfObjData, risksOfObjData,
      w1vuln, evidenceUpdate]
  unfold combineDetectionResults
  simp only [List.filterMap_cons, List.filterMap_nil]
  rw [hc]
  norm_num [qMax0, defaultDetectorConfig, w1result]

/-- C1 witness: the invariant evaluated at the concrete result fused from a
one-strategy input with a single confidence-1 finding. -/
theorem c1_fusion_confidence_witness :
    w1result.overall_confidence =
      qMax0 (w1result.vulnerabilities.filterMap (fun v => v.confidence)) ∧
    w1result.overall_confidence ≤ 1 ∧
    w1result.risk_score =
      (match w1result.vulnerabilities.filterMap (fun v => v.risk_score) with
       | [] => w1result.overall_confidence
       | x :: xs => qMaxNe x xs) :=
  c1_fusion_confidence w1srs [1] defaultDetectorConfig
    (by simp [w1srs, suspOkB, w1od])
    (by simp [w1srs, confBoundB, w1od, w1vuln])
    w1result
    (by rw [w1combineEq]; exact List.mem_singleton.mpr rfl)

/-- C2: a fused result for an object exists iff the object was requested,
at least one finding was gathered for it, and its overall confidence meets
the configured threshold — whose default is 0.5. -/
theorem c2_emission_iff (srs : List StrategyOutcome) (ids : List Int)
    (cfg : DetectorConfig) (oid : Int) :
    ((∃ r ∈ combineDetectionResults srs ids cfg, r.object_id = oid) ↔
      (oid ∈ ids ∧ (collectObj srs oid).vulns ≠ [] ∧
        cfg.confidence_threshold ≤ qMax0 ((collectObj srs oid).confs)))
    ∧ defaultDetectorConfig.confidence_threshold = 1/2 := by
  constructor
  · constructor
    · rintro ⟨r, hr, hobj⟩
      unfold combineDetectionResults at hr
      obtain ⟨i, hi, hf⟩ := List.mem_filterMap.mp hr
      dsimp only at hf
      split at hf
      · rename_i hcond
        injection hf with hf
        subst hf
        dsimp only at hobj
        subst hobj
        simp only [Bool.and_eq_true, Bool.not_eq_true', List.isEmpty_eq_false,
          decide_eq_true_eq] at hcond
        exact ⟨hi, hcond.1, hcond.2⟩
      · exact Option.noConfusion hf
    · rintro ⟨hoid, hvulns, hconf⟩
      have hcond : (!(collectObj srs oid).vulns.isEmpty &&
          decide (cfg.confidence_threshold ≤
            qMax0 (collectObj srs oid).confs)) = true := by
        simp only [Bool.and_eq_true, Bool.not_eq_true', List.isEmpty_eq_false,
          decide_eq_true_eq]
        exact ⟨hvulns, hconf⟩
      exact ⟨_, List.mem_filterMap.mpr ⟨oid, hoid,
        by dsimp only; rw [if_pos hcond]⟩, rfl⟩
  · rfl

/-- A raising strategy (an exception element of the gather list)
contributes nothing to any object. -/
theorem collectSkipExc (srs1 srs2 : List StrategyOutcome) (msg : String)
    (oid : Int) :
    collectObj (srs1 ++ StrategyOutcome.exc msg :: srs2) oid =
      collectObj (srs1 ++ srs2) oid := by
  induction srs1 with
  | nil => rfl
  | cons so rest ih =>
      cases so <;> simp [collectObj, ih]

/-- C3: if one strategy's coroutine raises, the gather returns its
exception in place and fusion skips it: the fused result list is exactly
the one obtained without the failed strategy, so every other strategy's
findings appear unchanged and the failed strategy contributes zero
findings for every object. -/
theorem c3_partial_failure (srs1 srs2 : List StrategyOutcome) (msg : String)
    (ids : List Int) (cfg : DetectorConfig) :
    combineDetectionResults (srs1 ++ StrategyOutcome.exc msg :: srs2) ids cfg =
      combineDetectionResults (srs1 ++ srs2) ids cfg := by
  unfold combineDetectionResults
  congr 1
  funext oid
  rw [collectSkipExc]
